import Mathlib

/-!
# Barrack packet handlers

A shallow embedding of `src/barrack_server/barrack_handler/barrack_handler.c`
(R1EMU): the ten packet handlers of the barrack server and their dispatch
table, followed by theorems about them.

Conventions of the embedding.

* A byte buffer or a `char`/`uint8_t` array is the list of its bytes, so that
  `sizeof array` is the length of the list; a byte is read modulo 256.
* A `Commander *` is `Option Nat`: `none` is `NULL`, `some a` is the address of
  cell `a` of the heap.  A heap cell is `some c` while allocated and `none` once
  freed.
* A handler returns `none` when the C code has no defined behaviour (a read or
  write through a null or dangling pointer, an access outside an array or
  outside the received packet); otherwise it returns the status, the memory
  after the call, the reply container after the call and the collaborator calls
  made, in order.
* The constants, macros and functions that the file takes from headers that are
  not part of the sources are parameters: `Config` for constants, `Collab` for
  the outcomes of the functions called.
-/

namespace Barrack

/-! ## Data model -/

/-- Status returned by a packet handler (enumeration of `packet.h`). -/
inductive PacketHandlerState where
  | PACKET_HANDLER_ERROR
  | PACKET_HANDLER_OK
  | PACKET_HANDLER_UPDATE_SESSION
  deriving DecidableEq, Repr

/-- Message codes handed to `barrackBuilderMessage`; only the codes named in the
handlers are listed. -/
inductive BcMessageType where
  | BC_MESSAGE_NO_MSG
  | BC_MESSAGE_USER_PASS_INCORRECT_1
  | BC_MESSAGE_ACCOUNT_BLOCKED_2
  | BC_MESSAGE_COMMANDER_NAME_TOO_SHORT
  | BC_MESSAGE_NAME_ALREADY_EXIST
  | BC_MESSAGE_CREATE_COMMANDER_FAIL
  | BC_MESSAGE_CUSTOM_MSG
  deriving DecidableEq, Repr

/-- Constants and build options that come from headers outside the sources. -/
structure Config where
  ACCOUNT_SESSION_LOGIN_MAXSIZE : Nat
  COMMANDER_NAME_SIZE : Nat
  MAX_COMMANDERS_PER_ACCOUNT : Nat
  /-- The value of `sizeof(ServerPacketHeader)`. -/
  sizeofServerPacketHeader : Nat
  /-- The value of `sizeof(PositionXZ)`. -/
  sizeofPositionXZ : Nat
  ACCOUNT_SESSION_PRIVILEGES_ADMIN : Nat
  COMMANDER_JOB_WARRIOR : Nat
  COMMANDER_JOB_ARCHER : Nat
  COMMANDER_JOB_WIZARD : Nat
  COMMANDER_JOB_CLERIC : Nat
  COMMANDER_CLASS_WARRIOR : Nat
  COMMANDER_CLASS_ARCHER : Nat
  COMMANDER_CLASS_WIZARD : Nat
  COMMANDER_CLASS_CLERIC : Nat
  COMMANDER_GENDER_MALE : Nat
  COMMANDER_GENDER_FEMALE : Nat
  COMMANDER_GENDER_BOTH : Nat
  /-- Value of the enumerator, a `BarrackNameChangeStatus`. -/
  BC_BARRACKNAME_CHANGE_OK : Int
  /-- Value of the enumerator, a `BarrackNameChangeStatus`. -/
  BC_BARRACKNAME_CHANGE_ERROR : Int
  /-- Number of value bits of the field `commandersCount` of the account session;
  its increment is taken modulo `2 ^ commandersCountBits`. -/
  commandersCountBits : Nat
  /-- Whether the `dbg` macro is compiled in, in which case it evaluates its
  arguments. -/
  dbgActive : Bool
  deriving DecidableEq, Repr

/-- Appearance of a commander; the fields are those the handlers touch. -/
structure CommanderAppearance where
  commanderName : List Nat
  familyName : List Nat
  accountId : Nat
  classId : Nat
  jobId : Nat
  gender : Nat
  hairId : Nat
  deriving DecidableEq, Repr

/-- One player character.  The field `pos` is a `PositionXYZ`: three `float`s,
kept as their twelve raw bytes. -/
structure Commander where
  appearance : CommanderAppearance
  pos : List Nat
  mapId : Nat
  pcId : Nat
  socialInfoId : Nat
  commanderId : Nat
  deriving DecidableEq, Repr

/-- The part `session->socket` of a session. -/
structure SocketSession where
  sessionKey : List Nat
  accountId : Nat
  authenticated : Bool
  routerId : Nat
  mapId : Int
  deriving DecidableEq, Repr

/-- The part `session->game.accountSession` of a session.  The roster
`commanders` is an array of `Commander *`. -/
structure AccountSession where
  login : List Nat
  accountId : Nat
  privilege : Nat
  isBanned : Bool
  familyName : List Nat
  commanders : List (Option Nat)
  commandersCount : Nat
  deriving DecidableEq, Repr

/-- The part `session->game.commanderSession` of a session. -/
structure CommanderSession where
  currentCommander : Option Nat
  deriving DecidableEq, Repr

/-- The part `session->game` of a session. -/
structure GameSession where
  accountSession : AccountSession
  commanderSession : CommanderSession
  deriving DecidableEq, Repr

/-- One session per connected client. -/
structure Session where
  socket : SocketSession
  game : GameSession
  deriving DecidableEq, Repr

/-- The memory a handler works on: the session and the heap that holds the
commander records the session points to. -/
structure Mem where
  session : Session
  heap : List (Option Commander)
  deriving DecidableEq, Repr

/-- Key of a game session in the distributed store. -/
structure RedisGameSessionKey where
  routerId : Nat
  mapId : Int
  accountId : Nat
  deriving DecidableEq, Repr

/-- The fields of `Worker` that the handlers read directly. -/
structure Worker where
  /-- The field `info.routerId`. -/
  routerId : Nat
  deriving DecidableEq, Repr

/-- One packet appended to the reply container: the builder that was called and
the values it was given. -/
inductive Reply where
  | message (msgType : BcMessageType) (text : String)
  | loginOk (accountId : Nat) (login : List Nat) (token : String) (privilege : Nat)
  | startGameOk (routerId zoneServerIp zoneServerPort mapId commanderIndex
      socialInfoId : Nat) (isSingleMap : Bool)
  | commanderMoveOk (accountId commanderListId : Nat) (pos : List Nat)
  | commanderList (accountId : Nat) (game : GameSession) (commanders : List Commander)
      (commandersCount : Nat)
  | petInformation
  | zoneTraffics (mapId : Nat)
  | barrackNameChange (changeStatus : Int) (familyName : List Nat)
  | commanderDestroy (commanderIndex : Nat)
  | commanderCreate (commander : Commander) (commanderIndex : Nat)
  | logoutOk
  deriving DecidableEq, Repr

/-- One call to a database, store or random-number collaborator, with the
values it was given. -/
inductive Call where
  | accountSessionInit (login sessionKey : List Nat) (privilege : Nat)
  | mySqlGetAccountData (login md5Password : List Nat)
  | mySqlRequestCommandersByAccountId (accountId : Nat)
  | mySqlGetCommanders (count : Nat)
  | mySqlSetFamilyName (account : AccountSession) (familyName : List Nat)
  | mySqlCommanderInsert (accountId : Nat) (commander : Commander)
  | MySqlCommanderDelete (commanderId : Nat)
  | redisUpdateSession (m : Mem)
  | redisMoveGameSession (fromKey toKey : RedisGameSessionKey)
  | r1emuGenerateRandom
  | r1emuGenerateRandom64
  deriving DecidableEq, Repr

/-- Outcomes of the functions the handlers call that are defined outside the
sources.  A function that returns `bool` and fills a local variable is an
`Option`: `none` when it returns `false`. -/
structure Collab where
  /-- Success flag and the content written to the account session given. -/
  accountSessionInit : List Nat → List Nat → Nat → Bool × AccountSession
  /-- On success, the account session filled in and the flag `goodCredentials`. -/
  mySqlGetAccountData : List Nat → List Nat → AccountSession → Option (AccountSession × Bool)
  /-- On success, the number of commanders of the account. -/
  mySqlRequestCommandersByAccountId : Nat → Option Nat
  /-- On success, the content of the array of the given size. -/
  mySqlGetCommanders : Nat → Option (Nat → Commander)
  /-- Status returned, a `BarrackNameChangeStatus`. -/
  mySqlSetFamilyName : AccountSession → List Nat → Int
  /-- On success, the commander record after the insert. -/
  mySqlCommanderInsert : Nat → Commander → Option Commander
  MySqlCommanderDelete : Nat → Bool
  redisUpdateSession : Mem → Bool
  redisMoveGameSession : RedisGameSessionKey → RedisGameSessionKey → Bool
  r1emuGenerateRandom : Nat
  r1emuGenerateRandom64 : Nat
  /-- Content of a commander record after `commanderInit`. -/
  commanderInit : Commander

/-- What a handler call leaves behind. -/
structure HandlerResult where
  status : PacketHandlerState
  mem : Mem
  reply : List Reply
  calls : List Call
  deriving DecidableEq, Repr

/-! ## Bytes, strings and pointers -/

/-- Read the `uint8_t` at an offset of the packet. -/
def readU8 (packet : List Nat) (off : Nat) : Nat :=
  packet.getD off 0 % 256

/-- Read the little-endian `uint16_t` at an offset of the packet. -/
def readU16 (packet : List Nat) (off : Nat) : Nat :=
  readU8 packet off + 256 * readU8 packet (off + 1)

/-- The array of `len` bytes at an offset of the packet. -/
def bytesAt (packet : List Nat) (off len : Nat) : List Nat :=
  (packet.drop off).take len

/-- Load four bytes as a little-endian `uint32_t`. -/
def le32 (b0 b1 b2 b3 : Nat) : Nat :=
  b0 % 256 + 256 * (b1 % 256) + 65536 * (b2 % 256) + 16777216 * (b3 % 256)

/-- The library function `strlen` on the bytes that follow a pointer into the
packet: the number of bytes before the first zero byte, `none` when the scan
leaves the packet. -/
def strlen : List Nat → Option Nat
  | [] => none
  | b :: bs => if b % 256 = 0 then some 0 else (strlen bs).map (· + 1)

/-- The library function `isprint` in the C locale. -/
def isprint (c : Nat) : Bool :=
  decide (32 ≤ c % 256) && decide (c % 256 ≤ 126)

/-- The library function `strncpy` into an array of `n` bytes from a string
given by its characters: at most `n` of them, then zero bytes up to `n`. -/
def strncpy (n : Nat) (src : List Nat) : List Nat :=
  src.take n ++ List.replicate (n - (src.take n).length) 0

/-- The library function `memcpy` of `n` bytes; `none` when either array is
shorter than `n`. -/
def memcpy (dst src : List Nat) (n : Nat) : Option (List Nat) :=
  if n ≤ dst.length ∧ n ≤ src.length then some (src.take n ++ dst.drop n) else none

/-- ASCII code of one upper-case hexadecimal digit. -/
def hexDigit (d : Nat) : Nat :=
  if d < 10 then 48 + d else 55 + d

/-- Digits of `v` in base sixteen, most significant first. -/
def hexUpperAux : Nat → Nat → List Nat → List Nat
  | 0, _, acc => acc
  | fuel + 1, v, acc =>
    if v < 16 then hexDigit v :: acc
    else hexUpperAux fuel (v / 16) (hexDigit (v % 16) :: acc)

/-- The characters printed by the conversion `%llX` for a 64-bit value. -/
def hexUpper (v : Nat) : List Nat :=
  hexUpperAux 16 (v % 2 ^ 64) []

/-- The library call `snprintf(buf, sizeof(buf), "%llX", v)`: as many characters
as fit before the terminating zero; the bytes after it are left as they were. -/
def snprintfHex (buf : List Nat) (v : Nat) : List Nat :=
  if buf.length = 0 then buf
  else
    let s := (hexUpper v).take (buf.length - 1)
    s ++ [0] ++ buf.drop (s.length + 1)

/-- Read through a commander pointer: `none` for `NULL`, for an address outside
the heap and for a freed cell. -/
def deref (heap : List (Option Commander)) (p : Option Nat) : Option Commander :=
  match p with
  | none => none
  | some a => (heap.get? a).join

/-- Allocate a cell holding `c`; returns the heap and the new address. -/
def malloc (heap : List (Option Commander)) (c : Commander) : List (Option Commander) × Nat :=
  (heap ++ [some c], heap.length)

/-- Read `commanders[commanderIndex - 1]` for a `uint8_t` index; `none` when the
index falls outside the array. -/
def rosterGet (commanders : List (Option Nat)) (commanderIndex : Nat) : Option (Option Nat) :=
  if commanderIndex = 0 then none else commanders.get? (commanderIndex - 1)

/-- Write `commanders[commanderIndex - 1] = p`; `none` when the index falls
outside the array. -/
def rosterSet (commanders : List (Option Nat)) (commanderIndex : Nat) (p : Option Nat) :
    Option (List (Option Nat)) :=
  if commanderIndex = 0 then none
  else if commanderIndex - 1 < commanders.length then some (commanders.set (commanderIndex - 1) p)
  else none

/-- Modelled from the spec: the macro `CHECK_CLIENT_PACKET_SIZE` is defined in a
header outside the sources.  The buffer is accepted when its length equals the
size of the packed layout the handler declares; otherwise the macro makes the
handler return `PACKET_HANDLER_ERROR`. -/
def CHECK_CLIENT_PACKET_SIZE (sizeofClientPacket packetSize : Nat) : Bool :=
  sizeofClientPacket == packetSize

/-! ## Authentication -/

/-- Size of the packed layout of `CB_LOGIN`: `login`, `md5Password[17]`,
`unk1[5]`. -/
def sizeofLoginPacket (cfg : Config) : Nat :=
  cfg.ACCOUNT_SESSION_LOGIN_MAXSIZE + 17 + 5

/-- The fixed token both login handlers hand to `barrackBuilderLoginOk`. -/
def loginToken : String := "*0FC621B82495C18DEC8D8D956C82297BEAAAA858"

/-- Handler of `CB_LOGIN`: read the login and password and accept or refuse the
authentication. -/
def barrackHandlerLogin (cfg : Config) (ext : Collab) (_self : Worker) (m : Mem)
    (packet : List Nat) (reply : List Reply) : Option HandlerResult :=
  if !CHECK_CLIENT_PACKET_SIZE (sizeofLoginPacket cfg) packet.length then
    some ⟨.PACKET_HANDLER_ERROR, m, reply, []⟩
  else
    let login := bytesAt packet 0 cfg.ACCOUNT_SESSION_LOGIN_MAXSIZE
    let md5Password := bytesAt packet cfg.ACCOUNT_SESSION_LOGIN_MAXSIZE 17
    -- the account session is a local variable until the credentials are accepted
    let init := ext.accountSessionInit login m.session.socket.sessionKey
      m.session.game.accountSession.privilege
    let calls1 := [Call.accountSessionInit login m.session.socket.sessionKey
      m.session.game.accountSession.privilege]
    if !init.1 then
      some ⟨.PACKET_HANDLER_ERROR, m, reply, calls1⟩
    else
      let calls2 := calls1 ++ [Call.mySqlGetAccountData login md5Password]
      match ext.mySqlGetAccountData login md5Password init.2 with
      | none => some ⟨.PACKET_HANDLER_ERROR, m, reply, calls2⟩
      | some (accountSession, goodCredentials) =>
        if !goodCredentials then
          some ⟨.PACKET_HANDLER_OK, m,
            reply ++ [Reply.message .BC_MESSAGE_USER_PASS_INCORRECT_1 ""], calls2⟩
        else if accountSession.isBanned then
          some ⟨.PACKET_HANDLER_OK, m,
            reply ++ [Reply.message .BC_MESSAGE_ACCOUNT_BLOCKED_2 ""], calls2⟩
        else
          let session : Session :=
            { socket := { m.session.socket with
                authenticated := true, accountId := accountSession.accountId }
              game := { m.session.game with accountSession := accountSession } }
          some ⟨.PACKET_HANDLER_UPDATE_SESSION, { m with session := session },
            reply ++ [Reply.loginOk session.socket.accountId session.game.accountSession.login
              loginToken session.game.accountSession.privilege], calls2⟩

/-- Size of the packed layout of `CB_LOGIN_BY_PASSPORT`: header, `unk1`, `unk2`,
`unk3`, `passport[1011]`, `unk4`, `unk5`, `clientId`, `clientId2`. -/
def sizeofLoginByPassportPacket (cfg : Config) : Nat :=
  cfg.sizeofServerPacketHeader + 4 + 1 + 2 + 1011 + 4 + 2 + 8 + 4

/-- Handler of `CB_LOGIN_BY_PASSPORT`: the passport is not checked; the session
gets a random account. -/
def barrackHandlerLoginByPassport (cfg : Config) (ext : Collab) (_self : Worker) (m : Mem)
    (packet : List Nat) (reply : List Reply) : Option HandlerResult :=
  if !CHECK_CLIENT_PACKET_SIZE (sizeofLoginByPassportPacket cfg) packet.length then
    some ⟨.PACKET_HANDLER_ERROR, m, reply, []⟩
  else
    let accountId := ext.r1emuGenerateRandom64 % 2 ^ 64
    let socket : SocketSession :=
      { m.session.socket with authenticated := true, accountId := accountId }
    -- the account session of the session is initialised in place
    let init := ext.accountSessionInit m.session.game.accountSession.login
      m.session.socket.sessionKey cfg.ACCOUNT_SESSION_PRIVILEGES_ADMIN
    let calls := [Call.r1emuGenerateRandom64,
      Call.accountSessionInit m.session.game.accountSession.login
        m.session.socket.sessionKey cfg.ACCOUNT_SESSION_PRIVILEGES_ADMIN]
    if !init.1 then
      some ⟨.PACKET_HANDLER_ERROR,
        { m with session := { socket := socket
                              game := { m.session.game with accountSession := init.2 } } },
        reply, calls⟩
    else
      let accountSession : AccountSession :=
        { init.2 with login := snprintfHex init.2.login accountId }
      some ⟨.PACKET_HANDLER_UPDATE_SESSION,
        { m with session := { socket := socket
                              game := { m.session.game with accountSession := accountSession } } },
        reply ++ [Reply.loginOk accountId accountSession.login loginToken
          accountSession.privilege], calls⟩

/-! ## Zone transition -/

/-- The table `zoneServerIps`: four addresses, each loaded as a `uint32_t` from
its four bytes. -/
def zoneServerIps : List Nat :=
  [le32 127 0 0 1, le32 46 105 97 46, le32 192 168 33 10, le32 37 187 102 130]

/-- The table `zoneServerPorts`. -/
def zoneServerPorts : List Nat := [2004, 2005, 2006, 2007]

/-- Size of the packed layout of `CB_START_GAME`: `routerId`, `commanderIndex`. -/
def sizeofStartGamePacket : Nat := 2 + 1

/-- Handler of `CB_START_GAME`: request for the player to enter the game. -/
def barrackHandlerStartGame (_cfg : Config) (ext : Collab) (self : Worker) (m : Mem)
    (packet : List Nat) (reply : List Reply) : Option HandlerResult :=
  if !CHECK_CLIENT_PACKET_SIZE sizeofStartGamePacket packet.length then
    some ⟨.PACKET_HANDLER_ERROR, m, reply, []⟩
  else
    let routerId := readU16 packet 0
    let commanderIndex := readU8 packet 2
    match rosterGet m.session.game.accountSession.commanders commanderIndex with
    | none => none
    | some none => some ⟨.PACKET_HANDLER_ERROR, m, reply, []⟩
    | some (some a) =>
      let maxServerCount := zoneServerIps.length
      if routerId ≥ maxServerCount then
        some ⟨.PACKET_HANDLER_ERROR, m, reply, []⟩
      else
        let zoneServerIp := zoneServerIps.getD routerId 0
        let zoneServerPort := zoneServerPorts.getD routerId 0
        -- commanderPrint reads the record of the selected slot
        match deref m.heap (some a) with
        | none => none
        | some commander =>
          -- prepare the current commander
          let m1 : Mem :=
            { m with session := { m.session with game := { m.session.game with
                commanderSession := { currentCommander := some a } } } }
          let calls1 := [Call.redisUpdateSession m1]
          if !ext.redisUpdateSession m1 then
            some ⟨.PACKET_HANDLER_ERROR, m1, reply, calls1⟩
          else
            let fromKey : RedisGameSessionKey :=
              { routerId := m1.session.socket.routerId
                mapId := m1.session.socket.mapId
                accountId := m1.session.socket.accountId }
            let toKey : RedisGameSessionKey :=
              { routerId := routerId
                mapId := -1
                accountId := m1.session.socket.accountId }
            let calls2 := calls1 ++ [Call.redisMoveGameSession fromKey toKey]
            if !ext.redisMoveGameSession fromKey toKey then
              some ⟨.PACKET_HANDLER_ERROR, m1, reply, calls2⟩
            else
              -- the second assignment of currentCommander stores the same pointer
              some ⟨.PACKET_HANDLER_UPDATE_SESSION, m1,
                reply ++ [Reply.startGameOk self.routerId zoneServerIp zoneServerPort
                  commander.mapId commanderIndex commander.socialInfoId false], calls2⟩

/-! ## Commander move -/

/-- Size of the packed layout of `CB_COMMANDER_MOVE`: `commanderListId`,
`position` (a `PositionXYZ`), `angleDestX`, `angleDestY`. -/
def sizeofCommanderMovePacket : Nat := 1 + 12 + 4 + 4

/-- Handler of `CB_COMMANDER_MOVE`: change the commander position in the
barrack.  The copy into `commander->pos` has the length `sizeof(PositionXZ)`. -/
def barrackHandlerCommanderMove (cfg : Config) (_ext : Collab) (_self : Worker) (m : Mem)
    (packet : List Nat) (reply : List Reply) : Option HandlerResult :=
  if !CHECK_CLIENT_PACKET_SIZE sizeofCommanderMovePacket packet.length then
    some ⟨.PACKET_HANDLER_ERROR, m, reply, []⟩
  else
    let commanderListId := readU8 packet 0
    let position := bytesAt packet 1 12
    match m.session.game.commanderSession.currentCommander with
    | none => none
    | some a =>
      match deref m.heap (some a) with
      | none => none
      | some commander =>
        match memcpy commander.pos position cfg.sizeofPositionXZ with
        | none => none
        | some pos =>
          some ⟨.PACKET_HANDLER_UPDATE_SESSION,
            { m with heap := m.heap.set a (some { commander with pos := pos }) },
            reply ++ [Reply.commanderMoveOk m.session.socket.accountId commanderListId pos],
            []⟩

/-! ## Barrack lifecycle -/

/-- The loop of `barrackHandlerStartBarrack` from index `i` on, `n` rounds: each
round allocates a record, copies `commanders[i]` into it, copies the family name
of the account over the family name of the record and stores the pointer in
slot `i` of the roster.  The result is `none` when a round writes outside the
roster or outside the family name of the record. -/
def startBarrackLoop (familyName : List Nat) (commanders : Nat → Commander) :
    Nat → Nat → List (Option Nat) → List (Option Commander) →
    Option (List (Option Nat) × List (Option Commander))
  | 0, _, roster, heap => some (roster, heap)
  | n + 1, i, roster, heap =>
    if i < roster.length then
      match memcpy (commanders i).appearance.familyName familyName familyName.length with
      | none => none
      | some stamped =>
        let c : Commander :=
          { commanders i with appearance := { (commanders i).appearance with
              familyName := stamped } }
        let alloc := malloc heap c
        startBarrackLoop familyName commanders n (i + 1) (roster.set i (some alloc.2)) alloc.1
    else none

/-- Handler of `CB_START_BARRACK`: load the commanders of the account.  The
handler has no size check (it is commented out) and reads nothing from the
packet. -/
def barrackHandlerStartBarrack (_cfg : Config) (ext : Collab) (_self : Worker) (m : Mem)
    (_packet : List Nat) (reply : List Reply) : Option HandlerResult :=
  let calls1 := [Call.mySqlRequestCommandersByAccountId m.session.socket.accountId]
  match ext.mySqlRequestCommandersByAccountId m.session.socket.accountId with
  | none => some ⟨.PACKET_HANDLER_ERROR, m, reply, calls1⟩
  | some commandersCount =>
    -- the count is stored in the session before the records are fetched
    let m1 : Mem :=
      { m with session := { m.session with game := { m.session.game with
          accountSession := { m.session.game.accountSession with
            commandersCount := commandersCount } } } }
    let calls2 := calls1 ++ [Call.mySqlGetCommanders commandersCount]
    match ext.mySqlGetCommanders commandersCount with
    | none => some ⟨.PACKET_HANDLER_ERROR, m1, reply, calls2⟩
    | some commanders =>
      match startBarrackLoop m1.session.game.accountSession.familyName commanders
          commandersCount 0 m1.session.game.accountSession.commanders m1.heap with
      | none => none
      | some (roster, heap) =>
        let game : GameSession :=
          { m1.session.game with accountSession :=
              { m1.session.game.accountSession with commanders := roster } }
        some ⟨.PACKET_HANDLER_UPDATE_SESSION,
          { session := { m1.session with game := game }, heap := heap },
          reply ++ [Reply.commanderList m1.session.socket.accountId game
            ((List.range commandersCount).map commanders) commandersCount],
          calls2⟩

/-- Size of the packed layout of `CB_BARRACKNAME_CHANGE`: `barrackName[64]`. -/
def sizeofBarrackNameChangePacket : Nat := 64

/-- The label `cleanup` of `barrackHandlerBarrackNameChange`: the reply is built
from the family name of the current commander, and a status other than
`BC_BARRACKNAME_CHANGE_OK` turns the handler status into `PACKET_HANDLER_OK`. -/
def barrackNameChangeCleanup (cfg : Config) (changeStatus : Int) (status : PacketHandlerState)
    (m : Mem) (reply : List Reply) (calls : List Call) : Option HandlerResult :=
  match deref m.heap m.session.game.commanderSession.currentCommander with
  | none => none
  | some commander =>
    some ⟨if changeStatus ≠ cfg.BC_BARRACKNAME_CHANGE_OK then .PACKET_HANDLER_OK else status,
      m, reply ++ [Reply.barrackNameChange changeStatus commander.appearance.familyName],
      calls⟩

/-- Handler of `CB_BARRACKNAME_CHANGE`: change the barrack name.  The status
kept in `changeStatus` after the database call is the value of the comparison
`mySqlSetFamilyName(...) != BC_BARRACKNAME_CHANGE_OK`, that is 1 or 0. -/
def barrackHandlerBarrackNameChange (cfg : Config) (ext : Collab) (_self : Worker) (m : Mem)
    (packet : List Nat) (reply : List Reply) : Option HandlerResult :=
  if !CHECK_CLIENT_PACKET_SIZE sizeofBarrackNameChangePacket packet.length then
    some ⟨.PACKET_HANDLER_ERROR, m, reply, []⟩
  else
    match strlen packet with
    | none => none
    | some barrackNameLen =>
      if barrackNameLen = 0 then
        barrackNameChangeCleanup cfg cfg.BC_BARRACKNAME_CHANGE_ERROR .PACKET_HANDLER_ERROR
          m reply []
      else if (packet.take barrackNameLen).any (fun c => !isprint c) then
        barrackNameChangeCleanup cfg cfg.BC_BARRACKNAME_CHANGE_ERROR .PACKET_HANDLER_ERROR
          m reply []
      else
        let barrackName := bytesAt packet 0 64
        let calls := [Call.mySqlSetFamilyName m.session.game.accountSession barrackName]
        let changeStatus : Int :=
          if ext.mySqlSetFamilyName m.session.game.accountSession barrackName
              ≠ cfg.BC_BARRACKNAME_CHANGE_OK then 1 else 0
        if changeStatus ≠ 0 then
          barrackNameChangeCleanup cfg changeStatus .PACKET_HANDLER_ERROR m reply calls
        else
          match m.session.game.commanderSession.currentCommander with
          | none => none
          | some a =>
            match deref m.heap (some a) with
            | none => none
            | some commander =>
              let name := packet.take barrackNameLen
              let commander1 : Commander :=
                { commander with appearance := { commander.appearance with
                    familyName := strncpy commander.appearance.familyName.length name } }
              let account : AccountSession :=
                { m.session.game.accountSession with
                    familyName := strncpy m.session.game.accountSession.familyName.length name }
              let m1 : Mem :=
                { session := { m.session with game := { m.session.game with
                    accountSession := account } }
                  heap := m.heap.set a (some commander1) }
              barrackNameChangeCleanup cfg changeStatus .PACKET_HANDLER_UPDATE_SESSION
                m1 reply calls

/-! ## Commander destroy -/

/-- Size of the packed layout of `CB_COMMANDER_DESTROY`: `commanderIndex`. -/
def sizeofCommanderDestroyPacket : Nat := 1

/-- The text of the message sent when the database delete fails. -/
def destroyFailedText : String :=
  "There was a problem while deleting your Character. Please try again."

/-- The function `commanderDestroy(&commander)` of `commander.h`: the record is
freed. -/
def commanderDestroy (heap : List (Option Commander)) (a : Nat) : List (Option Commander) :=
  heap.set a none

/-- Handler of `CB_COMMANDER_DESTROY`.  The first `dbg` line evaluates
`clientPacket->commanderIndex` before the size check, a read outside an empty
packet; the second reads `commandersCount` of the session.  The `dbg` line after
the roster read evaluates `commanderToDelete->commanderId` before the pointer is
tested. -/
def barrackHandlerCommanderDestroy (cfg : Config) (ext : Collab) (_self : Worker) (m : Mem)
    (packet : List Nat) (reply : List Reply) : Option HandlerResult :=
  if cfg.dbgActive && decide (packet.length = 0) then
    -- dbg reads clientPacket->commanderIndex
    none
  else if !CHECK_CLIENT_PACKET_SIZE sizeofCommanderDestroyPacket packet.length then
    some ⟨.PACKET_HANDLER_ERROR, m, reply, []⟩
  else
    let commanderIndex := readU8 packet 0
    match rosterGet m.session.game.accountSession.commanders commanderIndex with
    | none => none
    | some commanderToDelete =>
      if cfg.dbgActive && (deref m.heap commanderToDelete).isNone then
        -- dbg reads commanderToDelete->commanderId
        none
      else
        match commanderToDelete with
        | none =>
          some ⟨.PACKET_HANDLER_UPDATE_SESSION, m,
            reply ++ [Reply.commanderDestroy commanderIndex], []⟩
        | some a =>
          match deref m.heap (some a) with
          | none => none
          | some commander =>
            let calls := [Call.MySqlCommanderDelete commander.commanderId]
            if ext.MySqlCommanderDelete commander.commanderId then
              let account := m.session.game.accountSession
              let commandersCount :=
                if account.commandersCount > 0 then account.commandersCount - 1
                else account.commandersCount
              let account1 : AccountSession :=
                { account with
                    commandersCount := commandersCount
                    commanders := account.commanders.set (commanderIndex - 1) none }
              some ⟨.PACKET_HANDLER_UPDATE_SESSION,
                { session := { m.session with game := { m.session.game with
                    accountSession := account1 } }
                  heap := commanderDestroy m.heap a },
                reply ++ [Reply.commanderDestroy commanderIndex], calls⟩
            else
              some ⟨.PACKET_HANDLER_OK, m,
                reply ++ [Reply.message .BC_MESSAGE_CUSTOM_MSG destroyFailedText], calls⟩

/-! ## Commander create -/

/-- Size of the packed layout of `CB_COMMANDER_CREATE`: `commanderIndex`,
`commanderName[COMMANDER_NAME_SIZE+1]`, `jobId`, `gender`, three `float`
coordinates, `hairId`. -/
def sizeofCommanderCreatePacket (cfg : Config) : Nat :=
  1 + (cfg.COMMANDER_NAME_SIZE + 1) + 2 + 1 + 4 + 4 + 4 + 1

/-- The value `PositionXYZ_decl(19.0, 28.0, 29.0)`: the three `float`s as
little-endian bytes. -/
def barrackCenter : List Nat :=
  [0, 0, 152, 65, 0, 0, 224, 65, 0, 0, 232, 65]

/-- The `switch` on the job id: the class of a known job, `none` for the
`default` label. -/
def classOfJob (cfg : Config) (jobId : Nat) : Option Nat :=
  if jobId = cfg.COMMANDER_JOB_WARRIOR then some cfg.COMMANDER_CLASS_WARRIOR
  else if jobId = cfg.COMMANDER_JOB_ARCHER then some cfg.COMMANDER_CLASS_ARCHER
  else if jobId = cfg.COMMANDER_JOB_WIZARD then some cfg.COMMANDER_CLASS_WIZARD
  else if jobId = cfg.COMMANDER_JOB_CLERIC then some cfg.COMMANDER_CLASS_CLERIC
  else none

/-- The `switch` on the gender: only the labels `COMMANDER_GENDER_MALE` and
`COMMANDER_GENDER_FEMALE` accept. -/
def genderAccepted (cfg : Config) (gender : Nat) : Bool :=
  decide (gender = cfg.COMMANDER_GENDER_MALE) || decide (gender = cfg.COMMANDER_GENDER_FEMALE)

/-- The loop over the roster in `barrackHandlerCommanderCreate`, from slot `i`
on, `n` rounds: `some true` when the slot `commanderIndex - 1` is met and is not
empty, `some false` when the loop ends, `none` when a read leaves the roster. -/
def scanSlots (commanders : List (Option Nat)) (commanderIndex : Nat) :
    Nat → Nat → Option Bool
  | 0, _ => some false
  | n + 1, i =>
    match commanders.get? i with
    | none => none
    | some none => scanSlots commanders commanderIndex n (i + 1)
    | some (some _) =>
      if (commanderIndex : Int) - 1 = (i : Int) then some true
      else scanSlots commanders commanderIndex n (i + 1)

/-- The label `cleanup` of `barrackHandlerCommanderCreate` on the paths that
jump to it: a message other than `BC_MESSAGE_NO_MSG` is sent and the status
becomes `PACKET_HANDLER_OK`; without a message the status is still
`PACKET_HANDLER_ERROR`. -/
def commanderCreateFail (msgType : BcMessageType) (m : Mem) (reply : List Reply)
    (calls : List Call) : Option HandlerResult :=
  if msgType ≠ .BC_MESSAGE_NO_MSG then
    some ⟨.PACKET_HANDLER_OK, m, reply ++ [Reply.message msgType ""], calls⟩
  else
    some ⟨.PACKET_HANDLER_ERROR, m, reply, calls⟩

/-- Handler of `CB_COMMANDER_CREATE`.  The first `dbg` line evaluates
`clientPacket->commanderIndex` before the size check, a read outside an empty
packet; the second reads `commandersCount` of the session.  The local counter
`commandersCount` of the roster loop is never read and is left out.  The
increment of the field `commandersCount` wraps at the width of the field. -/
def barrackHandlerCommanderCreate (cfg : Config) (ext : Collab) (_self : Worker) (m : Mem)
    (packet : List Nat) (reply : List Reply) : Option HandlerResult :=
  if cfg.dbgActive && decide (packet.length = 0) then
    -- dbg reads clientPacket->commanderIndex
    none
  else if !CHECK_CLIENT_PACKET_SIZE (sizeofCommanderCreatePacket cfg) packet.length then
    some ⟨.PACKET_HANDLER_ERROR, m, reply, []⟩
  else
    let commanderIndex := readU8 packet 0
    let jobId := readU16 packet (1 + (cfg.COMMANDER_NAME_SIZE + 1))
    let gender := readU8 packet (1 + (cfg.COMMANDER_NAME_SIZE + 1) + 2)
    let hairId := readU8 packet (1 + (cfg.COMMANDER_NAME_SIZE + 1) + 2 + 1 + 4 + 4 + 4)
    let newCommander : Commander := { ext.commanderInit with mapId := 1002 }
    match strlen (packet.drop 1) with
    | none => none
    | some commanderNameLen =>
      if commanderNameLen = 0 then
        commanderCreateFail .BC_MESSAGE_COMMANDER_NAME_TOO_SHORT m reply []
      else if ((packet.drop 1).take commanderNameLen).any (fun c => !isprint c) then
        commanderCreateFail .BC_MESSAGE_NAME_ALREADY_EXIST m reply []
      else
        match classOfJob cfg jobId with
        | none => commanderCreateFail .BC_MESSAGE_CREATE_COMMANDER_FAIL m reply []
        | some classId =>
          if !genderAccepted cfg gender then
            commanderCreateFail .BC_MESSAGE_CREATE_COMMANDER_FAIL m reply []
          else
            match scanSlots m.session.game.accountSession.commanders commanderIndex
                cfg.MAX_COMMANDERS_PER_ACCOUNT 0 with
            | none => none
            | some true => commanderCreateFail .BC_MESSAGE_CREATE_COMMANDER_FAIL m reply []
            | some false =>
              let appearance : CommanderAppearance :=
                { newCommander.appearance with
                    classId := classId
                    jobId := jobId
                    gender := gender
                    commanderName := strncpy newCommander.appearance.commanderName.length
                      ((packet.drop 1).take commanderNameLen)
                    accountId := m.session.socket.accountId
                    hairId := hairId }
              let newCommander1 : Commander :=
                { newCommander with
                    appearance := appearance
                    pcId := ext.r1emuGenerateRandom % 2 ^ 32
                    socialInfoId := ext.r1emuGenerateRandom64 % 2 ^ 64
                    pos := barrackCenter }
              let calls := [Call.r1emuGenerateRandom, Call.r1emuGenerateRandom64,
                Call.mySqlCommanderInsert m.session.socket.accountId newCommander1]
              match ext.mySqlCommanderInsert m.session.socket.accountId newCommander1 with
              | none => commanderCreateFail .BC_MESSAGE_NO_MSG m reply calls
              | some inserted =>
                -- commanderDup allocates a copy of the record
                let alloc := malloc m.heap inserted
                match rosterSet m.session.game.accountSession.commanders commanderIndex
                    (some alloc.2) with
                | none => none
                | some roster =>
                  let account : AccountSession :=
                    { m.session.game.accountSession with
                        commanders := roster
                        commandersCount :=
                          (m.session.game.accountSession.commandersCount + 1)
                            % 2 ^ cfg.commandersCountBits }
                  some ⟨.PACKET_HANDLER_UPDATE_SESSION,
                    { session := { m.session with game := { m.session.game with
                        accountSession := account } }
                      heap := alloc.1 },
                    reply ++ [Reply.commanderCreate inserted commanderIndex], calls⟩

/-! ## Dispatch table -/

/-- The packet types registered in `barrackHandlers`. -/
inductive PacketType where
  | CB_LOGIN
  | CB_LOGIN_BY_PASSPORT
  | CB_START_BARRACK
  | CB_CURRENT_BARRACK
  | CB_BARRACKNAME_CHANGE
  | CB_COMMANDER_CREATE
  | CB_COMMANDER_DESTROY
  | CB_COMMANDER_MOVE
  | CB_START_GAME
  | CB_LOGOUT
  deriving DecidableEq, Repr

/-- The size of the packed layout the handler of a packet type declares and
checks; `none` for the three handlers that declare no layout and whose check is
commented out. -/
def sizeofClientPacket (cfg : Config) : PacketType → Option Nat
  | .CB_LOGIN => some (sizeofLoginPacket cfg)
  | .CB_LOGIN_BY_PASSPORT => some (sizeofLoginByPassportPacket cfg)
  | .CB_START_BARRACK => none
  | .CB_CURRENT_BARRACK => none
  | .CB_BARRACKNAME_CHANGE => some sizeofBarrackNameChangePacket
  | .CB_COMMANDER_CREATE => some (sizeofCommanderCreatePacket cfg)
  | .CB_COMMANDER_DESTROY => some sizeofCommanderDestroyPacket
  | .CB_COMMANDER_MOVE => some sizeofCommanderMovePacket
  | .CB_START_GAME => some sizeofStartGamePacket
  | .CB_LOGOUT => none

/-- The predicate of the spec on a session: `commandersCount` equals the number
of non-empty roster slots. -/
def commandersCountInvariant (s : Session) : Prop :=
  s.game.accountSession.commandersCount
    = (s.game.accountSession.commanders.filter Option.isSome).length

instance (s : Session) : Decidable (commandersCountInvariant s) := by
  unfold commandersCountInvariant
  exact inferInstance

/-! ## Sample data

Concrete constants, collaborators and sessions on which the handlers are
evaluated. -/

/-- Sample constants. -/
def sampleConfig : Config :=
  { ACCOUNT_SESSION_LOGIN_MAXSIZE := 33
    COMMANDER_NAME_SIZE := 64
    MAX_COMMANDERS_PER_ACCOUNT := 4
    sizeofServerPacketHeader := 6
    sizeofPositionXZ := 8
    ACCOUNT_SESSION_PRIVILEGES_ADMIN := 3
    COMMANDER_JOB_WARRIOR := 1
    COMMANDER_JOB_ARCHER := 3
    COMMANDER_JOB_WIZARD := 2
    COMMANDER_JOB_CLERIC := 4
    COMMANDER_CLASS_WARRIOR := 10001
    COMMANDER_CLASS_ARCHER := 10003
    COMMANDER_CLASS_WIZARD := 10002
    COMMANDER_CLASS_CLERIC := 10004
    COMMANDER_GENDER_MALE := 1
    COMMANDER_GENDER_FEMALE := 2
    COMMANDER_GENDER_BOTH := 3
    BC_BARRACKNAME_CHANGE_OK := 0
    BC_BARRACKNAME_CHANGE_ERROR := 1
    commandersCountBits := 64
    dbgActive := true }

/-- Sample commander record: name "Hero", family name "Fam". -/
def sampleCommander : Commander :=
  { appearance :=
      { commanderName := [72, 101, 114, 111, 0, 0, 0, 0]
        familyName := [70, 97, 109, 0, 0, 0, 0, 0]
        accountId := 77
        classId := 10001
        jobId := 1
        gender := 1
        hairId := 2 }
    pos := [0, 0, 152, 65, 0, 0, 224, 65, 0, 0, 232, 65]
    mapId := 1002
    pcId := 5
    socialInfoId := 6
    commanderId := 9 }

/-- Sample account record, as a database would return it. -/
def sampleAccount : AccountSession :=
  { login := [98, 111, 98, 0]
    accountId := 77
    privilege := 1
    isBanned := false
    familyName := [70, 97, 109, 0, 0, 0, 0, 0]
    commanders := [none, none, none, none]
    commandersCount := 0 }

/-- Sample session: not authenticated, empty roster. -/
def sampleSession : Session :=
  { socket := { sessionKey := [107], accountId := 0, authenticated := false,
                routerId := 1, mapId := 0 }
    game := { accountSession := { sampleAccount with login := [0, 0, 0, 0], accountId := 0 }
              commanderSession := { currentCommander := none } } }

/-- Sample memory: the sample session and an empty heap. -/
def sampleMem : Mem :=
  { session := sampleSession, heap := [] }

/-- Sample memory with one commander: slot 1 of the roster points to the only
heap cell, `commandersCount` is 1 and no commander is selected. -/
def sampleMemOne : Mem :=
  { session := { sampleSession with game :=
      { accountSession := { sampleAccount with
          commanders := [some 0, none, none, none], commandersCount := 1 }
        commanderSession := { currentCommander := none } } }
    heap := [some sampleCommander] }

/-- Sample worker. -/
def sampleWorker : Worker := { routerId := 1 }

/-- Sample collaborators: every call succeeds, the credentials are good. -/
def sampleCollab : Collab :=
  { accountSessionInit := fun login _ privilege =>
      (true, { sampleAccount with login := login, accountId := 0, privilege := privilege })
    mySqlGetAccountData := fun _ _ _ => some (sampleAccount, true)
    mySqlRequestCommandersByAccountId := fun _ => some 1
    mySqlGetCommanders := fun _ => some (fun _ => sampleCommander)
    mySqlSetFamilyName := fun _ _ => 0
    mySqlCommanderInsert := fun _ c => some { c with commanderId := 10 }
    MySqlCommanderDelete := fun _ => true
    redisUpdateSession := fun _ => true
    redisMoveGameSession := fun _ _ => true
    r1emuGenerateRandom := 11
    r1emuGenerateRandom64 := 12
    commanderInit := { sampleCommander with commanderId := 0 } }

/-- The two collaborator calls of a credentialed login that reaches the
database lookup. -/
def loginCalls (cfg : Config) (m : Mem) (packet : List Nat) : List Call :=
  [Call.accountSessionInit (bytesAt packet 0 cfg.ACCOUNT_SESSION_LOGIN_MAXSIZE)
      m.session.socket.sessionKey m.session.game.accountSession.privilege,
    Call.mySqlGetAccountData (bytesAt packet 0 cfg.ACCOUNT_SESSION_LOGIN_MAXSIZE)
      (bytesAt packet cfg.ACCOUNT_SESSION_LOGIN_MAXSIZE 17)]

/-- A well-sized login packet: 33 bytes of login, 17 of password hash, 5 of
version. -/
def sampleLoginPacket : List Nat :=
  [98, 111, 98] ++ List.replicate 30 0 ++ List.replicate 17 7 ++ [1, 2, 3, 4, 5]

/-- Collaborators whose database lookup succeeds and reports bad credentials. -/
def badCredentialsCollab : Collab :=
  { sampleCollab with mySqlGetAccountData := fun _ _ _ => some (sampleAccount, false) }

/-- Collaborators whose database lookup succeeds with good credentials for a
banned account. -/
def bannedCollab : Collab :=
  { sampleCollab with
      mySqlGetAccountData := fun _ _ _ => some ({ sampleAccount with isBanned := true }, true) }

/-- A well-sized commander-create packet for the sample constants: the slot
index, the name "Hi", job warrior, gender male, a position and hair 5. -/
def sampleCreatePacket (commanderIndex : Nat) : List Nat :=
  [commanderIndex, 72, 105] ++ List.replicate 63 0 ++ [1, 0, 1] ++ List.replicate 12 0 ++ [5]

/-- A well-sized commander-create packet whose name is empty. -/
def emptyNameCreatePacket : List Nat :=
  [2] ++ List.replicate 65 0 ++ [1, 0, 1] ++ List.replicate 12 0 ++ [5]

/-- A well-sized commander-create packet whose name holds the byte 7. -/
def badNameCreatePacket : List Nat :=
  [2, 72, 7] ++ List.replicate 63 0 ++ [1, 0, 1] ++ List.replicate 12 0 ++ [5]

/-- The memory `m` with `commanderSession.currentCommander` set to `p` and
nothing else changed. -/
def withCurrentCommander (m : Mem) (p : Option Nat) : Mem :=
  { m with session := { m.session with game := { m.session.game with
      commanderSession := { currentCommander := p } } } }

/-- The key the game session is moved from in `barrackHandlerStartGame`. -/
def startGameFromKey (m : Mem) : RedisGameSessionKey :=
  { routerId := m.session.socket.routerId
    mapId := m.session.socket.mapId
    accountId := m.session.socket.accountId }

/-- The key the game session is moved to in `barrackHandlerStartGame`. -/
def startGameToKey (m : Mem) (routerId : Nat) : RedisGameSessionKey :=
  { routerId := routerId, mapId := -1, accountId := m.session.socket.accountId }

/-- Sample memory with one commander, in slot 1, which is also the current
commander. -/
def sampleMemSelected : Mem :=
  withCurrentCommander sampleMemOne (some 0)

/-- The sample memory with one commander after its slot 1 was destroyed: the
roster is empty, the count is 0 and the heap cell is freed. -/
def sampleMemDestroyed : Mem :=
  { session := { sampleSession with game :=
      { accountSession := { sampleAccount with
          commanders := [none, none, none, none], commandersCount := 0 }
        commanderSession := { currentCommander := none } } }
    heap := [none] }

/-- The memory `sampleMemSelected` after slot 1 was destroyed, as the handler
leaves it: the current commander still holds the address of the freed cell. -/
def sampleMemDangling : Mem :=
  withCurrentCommander sampleMemDestroyed (some 0)

/-- Sample memory whose only commander is in slot 3. -/
def sampleMemThird : Mem :=
  { session := { sampleSession with game :=
      { accountSession := { sampleAccount with
          commanders := [none, none, some 0, none], commandersCount := 1 }
        commanderSession := { currentCommander := none } } }
    heap := [some sampleCommander] }

/-- Collaborators whose commander fetch fails after the count query succeeded. -/
def fetchFailsCollab : Collab :=
  { sampleCollab with mySqlGetCommanders := fun _ => none }

/-- Collaborators whose session update in the distributed store fails. -/
def updateFailsCollab : Collab :=
  { sampleCollab with redisUpdateSession := fun _ => false }

/-- Collaborators whose game-session move in the distributed store fails. -/
def moveFailsCollab : Collab :=
  { sampleCollab with redisMoveGameSession := fun _ _ => false }

/-- The sample constants with `dbg` compiled out. -/
def quietConfig : Config :=
  { sampleConfig with dbgActive := false }

/-- A well-sized start-game packet: router 2, commander index 1. -/
def sampleStartGamePacket : List Nat := [2, 0, 1]

/-- A well-sized commander-move packet. -/
def sampleMovePacket : List Nat :=
  [1] ++ [1, 2, 3, 4, 5, 6, 7, 8, 9, 10, 11, 12] ++ List.replicate 8 0

/-- A well-sized start-game packet: router 2, commander index 2 (an empty slot of
the sample roster). -/
def emptySlotStartGamePacket : List Nat := [2, 0, 2]

/-- A well-sized start-game packet: router 4 (outside the zone table), commander
index 1. -/
def badRouterStartGamePacket : List Nat := [4, 0, 1]

/-- Collaborators whose count query answers 3 and whose commander fetch fails. -/
def rosterFetchFailsCollab : Collab :=
  { sampleCollab with
      mySqlRequestCommandersByAccountId := fun _ => some 3
      mySqlGetCommanders := fun _ => none }

/-- Collaborators whose count query fails. -/
def countQueryFailsCollab : Collab :=
  { sampleCollab with mySqlRequestCommandersByAccountId := fun _ => none }

/-- Collaborators whose database delete fails. -/
def deleteFailsCollab : Collab :=
  { sampleCollab with MySqlCommanderDelete := fun _ => false }

/-- The memory `m` with `commandersCount` set to `n` and nothing else changed. -/
def withCommandersCount (m : Mem) (n : Nat) : Mem :=
  { m with session := { m.session with game := { m.session.game with
      accountSession := { m.session.game.accountSession with commandersCount := n } } } }

/-- The memory `m` with the position of the record in heap cell `a` set to
`pos` and nothing else changed. -/
def withCommanderPos (m : Mem) (a : Nat) (commander : Commander) (pos : List Nat) : Mem :=
  { m with heap := m.heap.set a (some { commander with pos := pos }) }

/-- The record `barrackHandlerCommanderCreate` hands to `mySqlCommanderInsert`
for a packet whose name has `len` characters and whose job has the class
`classId`. -/
def createdCommander (cfg : Config) (ext : Collab) (m : Mem) (packet : List Nat)
    (len classId : Nat) : Commander :=
  { appearance :=
      { commanderName := strncpy ext.commanderInit.appearance.commanderName.length
          ((packet.drop 1).take len)
        familyName := ext.commanderInit.appearance.familyName
        accountId := m.session.socket.accountId
        classId := classId
        jobId := readU16 packet (1 + (cfg.COMMANDER_NAME_SIZE + 1))
        gender := readU8 packet (1 + (cfg.COMMANDER_NAME_SIZE + 1) + 2)
        hairId := readU8 packet (1 + (cfg.COMMANDER_NAME_SIZE + 1) + 2 + 1 + 4 + 4 + 4) }
    pos := barrackCenter
    mapId := 1002
    pcId := ext.r1emuGenerateRandom % 2 ^ 32
    socialInfoId := ext.r1emuGenerateRandom64 % 2 ^ 64
    commanderId := ext.commanderInit.commanderId }

/-- The collaborator calls of a commander create that reaches the database
insert. -/
def createCalls (cfg : Config) (ext : Collab) (m : Mem) (packet : List Nat)
    (len classId : Nat) : List Call :=
  [Call.r1emuGenerateRandom, Call.r1emuGenerateRandom64,
    Call.mySqlCommanderInsert m.session.socket.accountId
      (createdCommander cfg ext m packet len classId)]

/-- The memory after a commander create stored `record` through slot
`commanderIndex`: the record is in a new heap cell, the slot points to it and
`commandersCount` is incremented in the width of the field. -/
def withCreatedCommander (cfg : Config) (m : Mem) (commanderIndex : Nat) (record : Commander) :
    Mem :=
  { session := { m.session with game := { m.session.game with
      accountSession := { m.session.game.accountSession with
        commanders :=
          m.session.game.accountSession.commanders.set (commanderIndex - 1)
            (some m.heap.length)
        commandersCount :=
          (m.session.game.accountSession.commandersCount + 1) % 2 ^ cfg.commandersCountBits } } }
    heap := m.heap ++ [some record] }

/-- Collaborators whose database insert fails. -/
def insertFailsCollab : Collab :=
  { sampleCollab with mySqlCommanderInsert := fun _ _ => none }

/-- A well-sized commander-create packet for slot 2 with the unknown job 9. -/
def unknownJobCreatePacket : List Nat :=
  [2, 72, 105] ++ List.replicate 63 0 ++ [9, 0, 1] ++ List.replicate 12 0 ++ [5]

/-- A well-sized commander-create packet for slot 2 with job warrior and the
gender code 3 (`COMMANDER_GENDER_BOTH` in the sample constants). -/
def bothGenderCreatePacket : List Nat :=
  [2, 72, 105] ++ List.replicate 63 0 ++ [1, 0, 3] ++ List.replicate 12 0 ++ [5]

/-- The memory after a barrack name change stored `name` in the family name of
the record in heap cell `a` and `accountName` in the family name of the account;
nothing else is changed. -/
def withFamilyName (m : Mem) (a : Nat) (commander : Commander) (name accountName : List Nat) :
    Mem :=
  { session := { m.session with game := { m.session.game with
      accountSession := { m.session.game.accountSession with familyName := accountName } } }
    heap := m.heap.set a
      (some { commander with appearance := { commander.appearance with familyName := name } }) }

/-- A well-sized name-change packet: the name "Abc". -/
def sampleRenamePacket : List Nat :=
  [65, 98, 99] ++ List.replicate 61 0

/-- A well-sized name-change packet with an empty name. -/
def emptyRenamePacket : List Nat :=
  List.replicate 64 0

/-- Collaborators whose database refuses the family name with the status 2. -/
def renameRejectedCollab : Collab :=
  { sampleCollab with mySqlSetFamilyName := fun _ _ => 2 }

/-- Value of one hexadecimal digit given by its ASCII code, for the digits
`0`..`9` and `A`..`F`. -/
def hexDigitValue (c : Nat) : Nat :=
  if c < 58 then c - 48 else c - 55

/-- The number a string of upper-case hexadecimal digits stands for, most
significant digit first. -/
def hexValue (l : List Nat) : Nat :=
  l.foldl (fun n c => 16 * n + hexDigitValue c) 0

/-- Whether an ASCII code is one of `0`..`9` or `A`..`F`. -/
def isUpperHexDigit (c : Nat) : Bool :=
  (decide (48 ≤ c) && decide (c ≤ 57)) || (decide (65 ≤ c) && decide (c ≤ 70))

/-- The account id `barrackHandlerLoginByPassport` takes from the random-number
collaborator. -/
def passportAccountId (ext : Collab) : Nat :=
  ext.r1emuGenerateRandom64 % 2 ^ 64

/-- The outcome of the call to `accountSessionInit` in
`barrackHandlerLoginByPassport`. -/
def passportInit (cfg : Config) (ext : Collab) (m : Mem) : Bool × AccountSession :=
  ext.accountSessionInit m.session.game.accountSession.login m.session.socket.sessionKey
    cfg.ACCOUNT_SESSION_PRIVILEGES_ADMIN

/-- The login array after the `snprintf` of `barrackHandlerLoginByPassport` when
the digits fit: the digits, the terminator, and the bytes the array already held
after them. -/
def passportLogin (cfg : Config) (ext : Collab) (m : Mem) : List Nat :=
  hexUpper (passportAccountId ext) ++ [0]
    ++ (passportInit cfg ext m).2.login.drop ((hexUpper (passportAccountId ext)).length + 1)

/-- A well-sized passport-login packet for the sample constants. -/
def samplePassportPacket : List Nat :=
  List.replicate 1042 65

/-- Sample collaborators whose random 64-bit number is 48879 (BEEF in
hexadecimal) and whose account login array has 33 bytes. -/
def passportCollab : Collab :=
  { sampleCollab with
      r1emuGenerateRandom64 := 48879
      accountSessionInit := fun _ _ privilege =>
        (true, { sampleAccount with
          login := List.replicate 33 0, accountId := 0, privilege := privilege }) }

/-- A fetched record after `barrackHandlerStartBarrack` copied the family name
of the account over the first bytes of its family name; every other field is the
one of the fetched record. -/
def stampFamilyName (familyName : List Nat) (c : Commander) : Commander :=
  { c with appearance := { c.appearance with
      familyName := familyName ++ c.appearance.familyName.drop familyName.length } }

/-- A fetched record: the sample commander with another id and the family name
"Old". -/
def fetchedCommander (i : Nat) : Commander :=
  { sampleCommander with
      commanderId := 20 + i
      appearance := { sampleCommander.appearance with
        familyName := [79, 108, 100, 0, 0, 0, 0, 0] } }

/-- Collaborators whose database holds two commanders for the account. -/
def twoCommandersCollab : Collab :=
  { sampleCollab with
      mySqlRequestCommandersByAccountId := fun _ => some 2
      mySqlGetCommanders := fun _ => some fetchedCommander }

/-! ## Size check -/

/-- A failed size check, as a rewrite rule. -/
theorem check_size_false {n k : Nat} (h : k ≠ n) :
    CHECK_CLIENT_PACKET_SIZE n k = false := by
  simp [CHECK_CLIENT_PACKET_SIZE, Ne.symm h]

/-- A passed size check, as a rewrite rule. -/
theorem check_size_true {n k : Nat} (h : k = n) :
    CHECK_CLIENT_PACKET_SIZE n k = true := by
  simp [CHECK_CLIENT_PACKET_SIZE, h]

/-- In a well-sized commander-destroy packet the `dbg` read of
`clientPacket->commanderIndex` is inside the packet. -/
theorem destroy_dbg_read (cfg : Config) {packet : List Nat}
    (hsize : packet.length = sizeofCommanderDestroyPacket) :
    (cfg.dbgActive && decide (packet.length = 0)) = false := by
  simp [hsize, sizeofCommanderDestroyPacket]

/-- In a well-sized commander-create packet the `dbg` read of
`clientPacket->commanderIndex` is inside the packet. -/
theorem create_dbg_read (cfg : Config) {packet : List Nat}
    (hsize : packet.length = sizeofCommanderCreatePacket cfg) :
    (cfg.dbgActive && decide (packet.length = 0)) = false := by
  simp [hsize, sizeofCommanderCreatePacket]

/-- The `dbg` read of `clientPacket->commanderIndex` is harmless when `dbg` is
compiled out or the packet is not empty. -/
theorem dbg_read_harmless (cfg : Config) {packet : List Nat}
    (h : cfg.dbgActive = false ∨ packet ≠ []) :
    (cfg.dbgActive && decide (packet.length = 0)) = false := by
  rcases h with h | h
  · simp [h]
  · simp [h]

/-- What the size check does in the seven handlers that have one: a packet size
different from the size of the packed layout makes the handler return
`PACKET_HANDLER_ERROR` with the reply container and the memory it was given and
no collaborator call.  In commander destroy and commander create the check
comes after a `dbg` read of the packet, so the statement is for `dbg` compiled
out or a packet that is not empty. -/
theorem size_check_rejects (cfg : Config) (ext : Collab) (self : Worker)
    (m : Mem) (packet : List Nat) (reply : List Reply) :
    (packet.length ≠ sizeofLoginPacket cfg →
      barrackHandlerLogin cfg ext self m packet reply
        = some ⟨.PACKET_HANDLER_ERROR, m, reply, []⟩)
    ∧ (packet.length ≠ sizeofLoginByPassportPacket cfg →
      barrackHandlerLoginByPassport cfg ext self m packet reply
        = some ⟨.PACKET_HANDLER_ERROR, m, reply, []⟩)
    ∧ (packet.length ≠ sizeofStartGamePacket →
      barrackHandlerStartGame cfg ext self m packet reply
        = some ⟨.PACKET_HANDLER_ERROR, m, reply, []⟩)
    ∧ (packet.length ≠ sizeofCommanderMovePacket →
      barrackHandlerCommanderMove cfg ext self m packet reply
        = some ⟨.PACKET_HANDLER_ERROR, m, reply, []⟩)
    ∧ (packet.length ≠ sizeofBarrackNameChangePacket →
      barrackHandlerBarrackNameChange cfg ext self m packet reply
        = some ⟨.PACKET_HANDLER_ERROR, m, reply, []⟩)
    ∧ (packet.length ≠ sizeofCommanderDestroyPacket →
      cfg.dbgActive = false ∨ packet ≠ [] →
      barrackHandlerCommanderDestroy cfg ext self m packet reply
        = some ⟨.PACKET_HANDLER_ERROR, m, reply, []⟩)
    ∧ (packet.length ≠ sizeofCommanderCreatePacket cfg →
      cfg.dbgActive = false ∨ packet ≠ [] →
      barrackHandlerCommanderCreate cfg ext self m packet reply
        = some ⟨.PACKET_HANDLER_ERROR, m, reply, []⟩) := by
  refine ⟨?_, ?_, ?_, ?_, ?_, ?_, ?_⟩ <;> intro h
  · simp [barrackHandlerLogin, check_size_false h]
  · simp [barrackHandlerLoginByPassport, check_size_false h]
  · simp [barrackHandlerStartGame, check_size_false h]
  · simp [barrackHandlerCommanderMove, check_size_false h]
  · simp [barrackHandlerBarrackNameChange, check_size_false h]
  · intro hread
    simp only [barrackHandlerCommanderDestroy, dbg_read_harmless cfg hread, check_size_false h]
    simp
  · intro hread
    simp only [barrackHandlerCommanderCreate, dbg_read_harmless cfg hread, check_size_false h]
    simp

/-- With `dbg` compiled in, the handlers of commander destroy and commander
create read `clientPacket->commanderIndex` before the size check, whatever the
session and the collaborators: on an empty packet the read is outside the
packet. -/
theorem dbg_read_outside_empty_packet (cfg : Config) (ext : Collab) (self : Worker)
    (m : Mem) (reply : List Reply) (hdbg : cfg.dbgActive = true) :
    barrackHandlerCommanderDestroy cfg ext self m [] reply = none
    ∧ barrackHandlerCommanderCreate cfg ext self m [] reply = none := by
  constructor
  · simp [barrackHandlerCommanderDestroy, hdbg]
  · simp [barrackHandlerCommanderCreate, hdbg]

/-- C2 at the failing input: with `dbg` compiled in, an empty packet (size 0,
different from the layout sizes 1 and 82) sent to the handler of commander
destroy, or of commander create, has no result: the `dbg` line in front of
`CHECK_CLIENT_PACKET_SIZE` reads `clientPacket->commanderIndex` outside the
packet.  The five other handlers with a size check reject the empty packet as
the claim says, and so do these two when `dbg` is compiled out. -/
theorem size_check_comes_after_dbg_read :
    sampleConfig.dbgActive = true
    ∧ ([] : List Nat).length ≠ sizeofCommanderDestroyPacket
    ∧ ([] : List Nat).length ≠ sizeofCommanderCreatePacket sampleConfig
    ∧ barrackHandlerCommanderDestroy sampleConfig sampleCollab sampleWorker sampleMemOne [] []
        = none
    ∧ barrackHandlerCommanderCreate sampleConfig sampleCollab sampleWorker sampleMemOne [] []
        = none
    ∧ barrackHandlerCommanderDestroy quietConfig sampleCollab sampleWorker sampleMemOne [] []
        = some ⟨.PACKET_HANDLER_ERROR, sampleMemOne, [], []⟩
    ∧ barrackHandlerCommanderCreate quietConfig sampleCollab sampleWorker sampleMemOne [] []
        = some ⟨.PACKET_HANDLER_ERROR, sampleMemOne, [], []⟩
    ∧ barrackHandlerLogin sampleConfig sampleCollab sampleWorker sampleMemOne [] []
        = some ⟨.PACKET_HANDLER_ERROR, sampleMemOne, [], []⟩
    ∧ barrackHandlerLoginByPassport sampleConfig sampleCollab sampleWorker sampleMemOne [] []
        = some ⟨.PACKET_HANDLER_ERROR, sampleMemOne, [], []⟩
    ∧ barrackHandlerStartGame sampleConfig sampleCollab sampleWorker sampleMemOne [] []
        = some ⟨.PACKET_HANDLER_ERROR, sampleMemOne, [], []⟩
    ∧ barrackHandlerCommanderMove sampleConfig sampleCollab sampleWorker sampleMemOne [] []
        = some ⟨.PACKET_HANDLER_ERROR, sampleMemOne, [], []⟩
    ∧ barrackHandlerBarrackNameChange sampleConfig sampleCollab sampleWorker sampleMemOne [] []
        = some ⟨.PACKET_HANDLER_ERROR, sampleMemOne, [], []⟩ :=
  ⟨rfl, by decide, by decide, rfl, rfl, rfl, rfl, rfl, rfl, rfl, rfl, rfl⟩

/-! ## Credentialed login -/

/-- C3: a well-sized login packet whose database lookup succeeds and reports
bad credentials, or good credentials for a banned account, leaves the memory
(the whole session, `socket.authenticated` and `socket.accountId` included)
unchanged, appends exactly one message reply (`BC_MESSAGE_USER_PASS_INCORRECT_1`
for bad credentials, otherwise `BC_MESSAGE_ACCOUNT_BLOCKED_2`) and returns
`PACKET_HANDLER_OK`. -/
theorem login_refused_leaves_session (cfg : Config) (ext : Collab) (self : Worker) (m : Mem)
    (packet : List Nat) (reply : List Reply) (account : AccountSession) (goodCredentials : Bool)
    (hsize : packet.length = sizeofLoginPacket cfg)
    (hinit : (ext.accountSessionInit (bytesAt packet 0 cfg.ACCOUNT_SESSION_LOGIN_MAXSIZE)
      m.session.socket.sessionKey m.session.game.accountSession.privilege).1 = true)
    (hdb : ext.mySqlGetAccountData (bytesAt packet 0 cfg.ACCOUNT_SESSION_LOGIN_MAXSIZE)
      (bytesAt packet cfg.ACCOUNT_SESSION_LOGIN_MAXSIZE 17)
      (ext.accountSessionInit (bytesAt packet 0 cfg.ACCOUNT_SESSION_LOGIN_MAXSIZE)
        m.session.socket.sessionKey m.session.game.accountSession.privilege).2
      = some (account, goodCredentials))
    (hrefused : goodCredentials = false ∨ account.isBanned = true) :
    barrackHandlerLogin cfg ext self m packet reply
      = some ⟨.PACKET_HANDLER_OK, m,
          reply ++ [Reply.message
            (if goodCredentials = false then .BC_MESSAGE_USER_PASS_INCORRECT_1
             else .BC_MESSAGE_ACCOUNT_BLOCKED_2) ""],
          loginCalls cfg m packet⟩ := by
  unfold barrackHandlerLogin
  simp only [check_size_true hsize, hinit, hdb, loginCalls]
  cases goodCredentials with
  | false => simp
  | true =>
    rcases hrefused with h | h
    · exact absurd h (by simp)
    · simp [h]

/-- Witness of `login_refused_leaves_session`: bad credentials. -/
theorem login_refused_leaves_session_witness :
    barrackHandlerLogin sampleConfig badCredentialsCollab sampleWorker sampleMem
        sampleLoginPacket []
      = some ⟨.PACKET_HANDLER_OK, sampleMem,
          [] ++ [Reply.message
            (if false = false then .BC_MESSAGE_USER_PASS_INCORRECT_1
             else .BC_MESSAGE_ACCOUNT_BLOCKED_2) ""],
          loginCalls sampleConfig sampleMem sampleLoginPacket⟩ :=
  login_refused_leaves_session sampleConfig badCredentialsCollab sampleWorker sampleMem
    sampleLoginPacket [] sampleAccount false rfl rfl rfl (Or.inl rfl)

/-- A login with good credentials for a banned account, on sample data. -/
theorem login_banned_sample :
    barrackHandlerLogin sampleConfig bannedCollab sampleWorker sampleMem sampleLoginPacket []
      = some ⟨.PACKET_HANDLER_OK, sampleMem,
          [Reply.message .BC_MESSAGE_ACCOUNT_BLOCKED_2 ""],
          loginCalls sampleConfig sampleMem sampleLoginPacket⟩ :=
  rfl

/-- C4: a well-sized login packet whose database lookup succeeds with good
credentials for an account that is not banned sets `socket.authenticated`, sets
`socket.accountId` to the account id of the record the database returned, stores
that record (login, privilege and ban flag included) as the account session,
appends exactly one login-ok reply with that account id, login and privilege,
and returns `PACKET_HANDLER_UPDATE_SESSION`. -/
theorem login_accepted_updates_session (cfg : Config) (ext : Collab) (self : Worker) (m : Mem)
    (packet : List Nat) (reply : List Reply) (account : AccountSession)
    (hsize : packet.length = sizeofLoginPacket cfg)
    (hinit : (ext.accountSessionInit (bytesAt packet 0 cfg.ACCOUNT_SESSION_LOGIN_MAXSIZE)
      m.session.socket.sessionKey m.session.game.accountSession.privilege).1 = true)
    (hdb : ext.mySqlGetAccountData (bytesAt packet 0 cfg.ACCOUNT_SESSION_LOGIN_MAXSIZE)
      (bytesAt packet cfg.ACCOUNT_SESSION_LOGIN_MAXSIZE 17)
      (ext.accountSessionInit (bytesAt packet 0 cfg.ACCOUNT_SESSION_LOGIN_MAXSIZE)
        m.session.socket.sessionKey m.session.game.accountSession.privilege).2
      = some (account, true))
    (hban : account.isBanned = false) :
    barrackHandlerLogin cfg ext self m packet reply
      = some ⟨.PACKET_HANDLER_UPDATE_SESSION,
          { session :=
              { socket := { sessionKey := m.session.socket.sessionKey
                            accountId := account.accountId
                            authenticated := true
                            routerId := m.session.socket.routerId
                            mapId := m.session.socket.mapId }
                game := { accountSession := account
                          commanderSession := m.session.game.commanderSession } }
            heap := m.heap },
          reply ++ [Reply.loginOk account.accountId account.login loginToken account.privilege],
          loginCalls cfg m packet⟩ := by
  unfold barrackHandlerLogin
  simp [check_size_true hsize, hinit, hdb, hban, loginCalls]

/-- Witness of `login_accepted_updates_session` on the sample data. -/
theorem login_accepted_updates_session_witness :
    barrackHandlerLogin sampleConfig sampleCollab sampleWorker sampleMem sampleLoginPacket []
      = some ⟨.PACKET_HANDLER_UPDATE_SESSION,
          { session :=
              { socket := { sessionKey := [107], accountId := 77, authenticated := true,
                            routerId := 1, mapId := 0 }
                game := { accountSession := sampleAccount
                          commanderSession := { currentCommander := none } } }
            heap := [] },
          [] ++ [Reply.loginOk 77 [98, 111, 98, 0] loginToken 1],
          loginCalls sampleConfig sampleMem sampleLoginPacket⟩ :=
  login_accepted_updates_session sampleConfig sampleCollab sampleWorker sampleMem
    sampleLoginPacket [] sampleAccount rfl rfl rfl rfl

/-! ## Commander create: rejections -/

/-- No character of the list fails `isprint`. -/
theorem any_not_isprint_eq_false {l : List Nat} (h : ∀ c ∈ l, isprint c = true) :
    l.any (fun c => !isprint c) = false := by
  simp only [List.any_eq_false]
  intro c hc
  simp [h c hc]

/-- Some character of the list fails `isprint`. -/
theorem any_not_isprint_eq_true {l : List Nat} (h : ∃ c ∈ l, isprint c = false) :
    l.any (fun c => !isprint c) = true := by
  simp only [List.any_eq_true]
  obtain ⟨c, hc, hp⟩ := h
  exact ⟨c, hc, by simp [hp]⟩

/-- The roster scan of commander create stops at slot `k` when that slot is
not empty. -/
theorem scanSlots_occupied (commanders : List (Option Nat)) (k a : Nat)
    (hslot : commanders.get? k = some (some a)) :
    ∀ (n i : Nat), i ≤ k → k < i + n → scanSlots commanders (k + 1) n i = some true := by
  intro n
  induction n with
  | zero => intro i h1 h2; omega
  | succ n ih =>
    intro i h1 h2
    unfold scanSlots
    by_cases hik : i = k
    · subst hik
      rw [hslot]
      simp
    · have hlt : i < commanders.length := by
        have hk : k < commanders.length := by
          by_contra hge
          rw [List.get?_eq_none.mpr (by omega)] at hslot
          exact absurd hslot (by simp)
        omega
      have hne : ¬ ((k : Int) + 1 - 1 = (i : Int)) := by omega
      have hrec := ih (i + 1) (by omega) (by omega)
      rw [List.get?_eq_get hlt]
      cases commanders.get ⟨i, hlt⟩ with
      | none => simpa using hrec
      | some b =>
        simp only [Nat.cast_add, Nat.cast_one]
        rw [if_neg hne]
        exact hrec

/-- C5: a well-sized commander-create packet with a valid name, job and gender
whose `commanderIndex` (in 1..MAX_COMMANDERS_PER_ACCOUNT) designates a roster
slot that is not empty calls no collaborator (no database insert), leaves the
memory unchanged (every roster slot and `commandersCount` included), appends
exactly one `BC_MESSAGE_CREATE_COMMANDER_FAIL` message and returns
`PACKET_HANDLER_OK`. -/
theorem create_into_occupied_slot_fails (cfg : Config) (ext : Collab) (self : Worker) (m : Mem)
    (packet : List Nat) (reply : List Reply) (len classId a : Nat)
    (hsize : packet.length = sizeofCommanderCreatePacket cfg)
    (hname : strlen (packet.drop 1) = some len) (hlen : len ≠ 0)
    (hprint : ∀ c ∈ (packet.drop 1).take len, isprint c = true)
    (hjob : classOfJob cfg (readU16 packet (1 + (cfg.COMMANDER_NAME_SIZE + 1))) = some classId)
    (hgender : genderAccepted cfg (readU8 packet (1 + (cfg.COMMANDER_NAME_SIZE + 1) + 2)) = true)
    (hindex : 1 ≤ readU8 packet 0 ∧ readU8 packet 0 ≤ cfg.MAX_COMMANDERS_PER_ACCOUNT)
    (hslot : rosterGet m.session.game.accountSession.commanders (readU8 packet 0)
      = some (some a)) :
    barrackHandlerCommanderCreate cfg ext self m packet reply
      = some ⟨.PACKET_HANDLER_OK, m,
          reply ++ [Reply.message .BC_MESSAGE_CREATE_COMMANDER_FAIL ""], []⟩ := by
  obtain ⟨k, hk⟩ : ∃ k, readU8 packet 0 = k + 1 := ⟨readU8 packet 0 - 1, by omega⟩
  rw [hk] at hslot hindex
  have hget : m.session.game.accountSession.commanders.get? k = some (some a) := by
    simpa [rosterGet] using hslot
  have hscan := scanSlots_occupied _ k a hget cfg.MAX_COMMANDERS_PER_ACCOUNT 0
    (Nat.zero_le _) (by omega)
  unfold barrackHandlerCommanderCreate
  simp only [create_dbg_read cfg hsize, Bool.false_eq_true, if_false, check_size_true hsize, hname, hk, hjob, hgender, hscan,
    any_not_isprint_eq_false hprint]
  simp [hlen, commanderCreateFail]

/-- Witness of `create_into_occupied_slot_fails`: slot 1 of the sample roster
holds a commander. -/
theorem create_into_occupied_slot_fails_witness :
    barrackHandlerCommanderCreate sampleConfig sampleCollab sampleWorker sampleMemOne
        (sampleCreatePacket 1) []
      = some ⟨.PACKET_HANDLER_OK, sampleMemOne,
          [] ++ [Reply.message .BC_MESSAGE_CREATE_COMMANDER_FAIL ""], []⟩ :=
  create_into_occupied_slot_fails sampleConfig sampleCollab sampleWorker sampleMemOne
    (sampleCreatePacket 1) [] 2 10001 0 rfl rfl (by decide) (by decide) rfl rfl
    (by decide) rfl

/-- C6: a well-sized commander-create packet whose name is empty, or holds a
byte that is not printable before its terminator, is rejected before any
collaborator is called: no insert is issued, the memory is unchanged, exactly
one message is appended (`BC_MESSAGE_COMMANDER_NAME_TOO_SHORT` for the empty
name, `BC_MESSAGE_NAME_ALREADY_EXIST` otherwise) and the handler returns
`PACKET_HANDLER_OK`. -/
theorem create_rejects_bad_name (cfg : Config) (ext : Collab) (self : Worker) (m : Mem)
    (packet : List Nat) (reply : List Reply) (len : Nat)
    (hsize : packet.length = sizeofCommanderCreatePacket cfg)
    (hname : strlen (packet.drop 1) = some len)
    (hbad : len = 0 ∨ ∃ c ∈ (packet.drop 1).take len, isprint c = false) :
    barrackHandlerCommanderCreate cfg ext self m packet reply
      = some ⟨.PACKET_HANDLER_OK, m,
          reply ++ [Reply.message
            (if len = 0 then .BC_MESSAGE_COMMANDER_NAME_TOO_SHORT
             else .BC_MESSAGE_NAME_ALREADY_EXIST) ""], []⟩ := by
  unfold barrackHandlerCommanderCreate
  simp only [create_dbg_read cfg hsize, Bool.false_eq_true, if_false, check_size_true hsize, hname]
  by_cases h0 : len = 0
  · simp [h0, commanderCreateFail]
  · rcases hbad with h | h
    · exact absurd h h0
    · rw [if_neg h0, any_not_isprint_eq_true h]
      simp [h0, commanderCreateFail]

/-- Witness of `create_rejects_bad_name`: the name holds the byte 7. -/
theorem create_rejects_bad_name_witness :
    barrackHandlerCommanderCreate sampleConfig sampleCollab sampleWorker sampleMemOne
        badNameCreatePacket []
      = some ⟨.PACKET_HANDLER_OK, sampleMemOne,
          [] ++ [Reply.message
            (if 2 = 0 then .BC_MESSAGE_COMMANDER_NAME_TOO_SHORT
             else .BC_MESSAGE_NAME_ALREADY_EXIST) ""], []⟩ :=
  create_rejects_bad_name sampleConfig sampleCollab sampleWorker sampleMemOne
    badNameCreatePacket [] 2 rfl rfl (Or.inr ⟨7, by decide, by decide⟩)

/-- A commander create with an empty name, on sample data. -/
theorem create_rejects_empty_name_sample :
    barrackHandlerCommanderCreate sampleConfig sampleCollab sampleWorker sampleMemOne
        emptyNameCreatePacket []
      = some ⟨.PACKET_HANDLER_OK, sampleMemOne,
          [Reply.message .BC_MESSAGE_COMMANDER_NAME_TOO_SHORT ""], []⟩ :=
  rfl

/-! ## Commander destroy -/

/-- Destroying slot `K` (in range, not empty, pointing to a live record) when the database delete of that record succeeds empties the slot,
frees the record, lowers a positive `commandersCount` by one, appends the
destroy acknowledgement for `K` and returns `PACKET_HANDLER_UPDATE_SESSION`. -/
theorem destroy_occupied_slot (cfg : Config) (ext : Collab) (self : Worker) (m : Mem)
    (packet : List Nat) (reply : List Reply) (a : Nat) (commander : Commander)
    (hsize : packet.length = sizeofCommanderDestroyPacket)
    (hslot : rosterGet m.session.game.accountSession.commanders (readU8 packet 0)
      = some (some a))
    (hrec : deref m.heap (some a) = some commander)
    (hdel : ext.MySqlCommanderDelete commander.commanderId = true) :
    barrackHandlerCommanderDestroy cfg ext self m packet reply
      = some ⟨.PACKET_HANDLER_UPDATE_SESSION,
          { session := { m.session with game := { m.session.game with
              accountSession := { m.session.game.accountSession with
                commandersCount :=
                  if m.session.game.accountSession.commandersCount > 0
                  then m.session.game.accountSession.commandersCount - 1
                  else m.session.game.accountSession.commandersCount
                commanders :=
                  m.session.game.accountSession.commanders.set (readU8 packet 0 - 1) none } } }
            heap := commanderDestroy m.heap a },
          reply ++ [Reply.commanderDestroy (readU8 packet 0)],
          [Call.MySqlCommanderDelete commander.commanderId]⟩ := by
  unfold barrackHandlerCommanderDestroy
  simp only [destroy_dbg_read cfg hsize, Bool.false_eq_true, if_false, check_size_true hsize, hslot, hrec, hdel]
  simp

/-- When `dbg` is compiled out, destroying an empty slot changes nothing, calls no collaborator, appends the acknowledgement and returns
`PACKET_HANDLER_UPDATE_SESSION`. -/
theorem destroy_empty_slot_without_dbg (cfg : Config) (ext : Collab) (self : Worker) (m : Mem)
    (packet : List Nat) (reply : List Reply)
    (hdbg : cfg.dbgActive = false)
    (hsize : packet.length = sizeofCommanderDestroyPacket)
    (hslot : rosterGet m.session.game.accountSession.commanders (readU8 packet 0)
      = some none) :
    barrackHandlerCommanderDestroy cfg ext self m packet reply
      = some ⟨.PACKET_HANDLER_UPDATE_SESSION, m,
          reply ++ [Reply.commanderDestroy (readU8 packet 0)], []⟩ := by
  unfold barrackHandlerCommanderDestroy
  simp only [destroy_dbg_read cfg hsize, Bool.false_eq_true, if_false, check_size_true hsize, hslot, hdbg]
  simp

/-- When `dbg` is compiled in, destroying an empty slot reads
`commanderToDelete->commanderId` through a null pointer, at the `dbg` line that
precedes the test of the pointer. -/
theorem destroy_empty_slot_with_dbg (cfg : Config) (ext : Collab) (self : Worker) (m : Mem)
    (packet : List Nat) (reply : List Reply)
    (hdbg : cfg.dbgActive = true)
    (hsize : packet.length = sizeofCommanderDestroyPacket)
    (hslot : rosterGet m.session.game.accountSession.commanders (readU8 packet 0)
      = some none) :
    barrackHandlerCommanderDestroy cfg ext self m packet reply = none := by
  unfold barrackHandlerCommanderDestroy
  simp only [destroy_dbg_read cfg hsize, Bool.false_eq_true, if_false, check_size_true hsize, hslot, hdbg]
  simp [deref]

/-- C7 at the failing input: with `dbg` compiled in, the first destroy of the
occupied slot 1 succeeds as the claim says (slot emptied, count lowered from 1 to
0, acknowledgement, `PACKET_HANDLER_UPDATE_SESSION`), and the second destroy of
slot 1 has no result: it dereferences the null slot pointer.  With `dbg`
compiled out the second destroy is the no-op of the claim. -/
theorem second_destroy_dereferences_null :
    barrackHandlerCommanderDestroy sampleConfig sampleCollab sampleWorker sampleMemOne [1] []
      = some ⟨.PACKET_HANDLER_UPDATE_SESSION, sampleMemDestroyed,
          [Reply.commanderDestroy 1], [Call.MySqlCommanderDelete 9]⟩
    ∧ barrackHandlerCommanderDestroy sampleConfig sampleCollab sampleWorker sampleMemDestroyed
        [1] [] = none
    ∧ barrackHandlerCommanderDestroy quietConfig sampleCollab sampleWorker sampleMemDestroyed
        [1] []
      = some ⟨.PACKET_HANDLER_UPDATE_SESSION, sampleMemDestroyed,
          [Reply.commanderDestroy 1], []⟩ :=
  ⟨rfl, rfl, rfl⟩

/-- The handler of commander destroy never writes `currentCommander`. -/
theorem destroy_keeps_currentCommander (cfg : Config) (ext : Collab) (self : Worker) (m : Mem)
    (packet : List Nat) (reply : List Reply) (r : HandlerResult)
    (h : barrackHandlerCommanderDestroy cfg ext self m packet reply = some r) :
    r.mem.session.game.commanderSession = m.session.game.commanderSession := by
  unfold barrackHandlerCommanderDestroy at h
  dsimp only at h
  repeat' split at h
  all_goals first
    | (cases h; rfl)
    | simp at h

/-- C8 at the failing input: slot 1 is occupied and is the current commander;
after the destroy of slot 1 with a successful database delete, the slot is
empty and its record is freed, and `currentCommander` still holds the address of
that record.  A commander move that follows reads through the dangling
pointer. -/
theorem destroy_leaves_currentCommander_dangling :
    barrackHandlerCommanderDestroy sampleConfig sampleCollab sampleWorker sampleMemSelected
        [1] []
      = some ⟨.PACKET_HANDLER_UPDATE_SESSION, sampleMemDangling,
          [Reply.commanderDestroy 1], [Call.MySqlCommanderDelete 9]⟩
    ∧ sampleMemDangling.session.game.commanderSession.currentCommander = some 0
    ∧ sampleMemDangling.session.game.accountSession.commanders = [none, none, none, none]
    ∧ deref sampleMemDangling.heap
        sampleMemDangling.session.game.commanderSession.currentCommander = none
    ∧ barrackHandlerCommanderMove sampleConfig sampleCollab sampleWorker sampleMemDangling
        sampleMovePacket [] = none :=
  ⟨rfl, rfl, rfl, rfl, rfl⟩

/-! ## The roster count -/

/-- C9 at the failing input: on a session with an empty roster and count 0 (the
invariant holds), a start-barrack call whose count query answers 1 and whose
commander fetch fails returns `PACKET_HANDLER_ERROR` and leaves
`commandersCount` at 1 with every slot empty: the invariant no longer holds. -/
theorem start_barrack_breaks_count_invariant :
    commandersCountInvariant sampleMem.session
    ∧ barrackHandlerStartBarrack sampleConfig fetchFailsCollab sampleWorker sampleMem [] []
      = some ⟨.PACKET_HANDLER_ERROR,
          { sampleMem with session := { sampleSession with game := { sampleSession.game with
              accountSession := { sampleSession.game.accountSession with
                commandersCount := 1 } } } },
          [], [Call.mySqlRequestCommandersByAccountId 0, Call.mySqlGetCommanders 1]⟩
    ∧ ¬ commandersCountInvariant
        { sampleSession with game := { sampleSession.game with
            accountSession := { sampleSession.game.accountSession with
              commandersCount := 1 } } } :=
  ⟨by decide, rfl, by decide⟩

/-- The count invariant is also lost on the success path of start barrack: with
one commander in slot 3 (count 1) and one record fetched, slot 1 is filled,
slot 3 keeps its pointer and the count is set to 1. -/
theorem start_barrack_keeps_stale_slots :
    commandersCountInvariant sampleMemThird.session
    ∧ ∃ r, barrackHandlerStartBarrack sampleConfig sampleCollab sampleWorker sampleMemThird
        [] [] = some r
      ∧ r.status = .PACKET_HANDLER_UPDATE_SESSION
      ∧ r.mem.session.game.accountSession.commanders = [some 1, none, some 0, none]
      ∧ r.mem.session.game.accountSession.commandersCount = 1
      ∧ ¬ commandersCountInvariant r.mem.session :=
  ⟨by decide, _, rfl, rfl, rfl, rfl, by decide⟩

/-! ## Start game: store failures -/

/-- C10 at the failing input: on a session with no current commander, a
well-sized start-game packet for the occupied slot 1 and zone 2 whose session
update fails returns `PACKET_HANDLER_ERROR` with no reply, and the session
differs from the one before the call: `currentCommander` references slot 1. -/
theorem start_game_failure_changes_session :
    barrackHandlerStartGame sampleConfig updateFailsCollab sampleWorker sampleMemOne
        sampleStartGamePacket []
      = some ⟨.PACKET_HANDLER_ERROR, sampleMemSelected, [],
          [Call.redisUpdateSession sampleMemSelected]⟩
    ∧ sampleMemSelected ≠ sampleMemOne
    ∧ sampleMemOne.session.game.commanderSession.currentCommander = none
    ∧ sampleMemSelected.session.game.commanderSession.currentCommander = some 0 :=
  ⟨rfl, by decide, rfl, rfl⟩

/-- What a failed store call of start game leaves behind, for a well-sized
packet that references an occupied slot (holding the address `a` of a live
record) and a zone id below 4: if the session update or the game-session move
fails, the handler returns `PACKET_HANDLER_ERROR` and appends no reply, and the
memory is the one before the call except that `currentCommander` holds the
pointer of the selected slot. -/
theorem start_game_store_failure (cfg : Config) (ext : Collab) (self : Worker) (m : Mem)
    (packet : List Nat) (reply : List Reply) (a : Nat) (commander : Commander)
    (hsize : packet.length = sizeofStartGamePacket)
    (hslot : rosterGet m.session.game.accountSession.commanders (readU8 packet 2)
      = some (some a))
    (hrec : deref m.heap (some a) = some commander)
    (hrouter : readU16 packet 0 < 4)
    (hfail : ext.redisUpdateSession (withCurrentCommander m (some a)) = false
      ∨ ext.redisMoveGameSession (startGameFromKey m) (startGameToKey m (readU16 packet 0))
          = false) :
    ∃ r, barrackHandlerStartGame cfg ext self m packet reply = some r
      ∧ r.status = .PACKET_HANDLER_ERROR ∧ r.reply = reply
      ∧ r.mem = withCurrentCommander m (some a) := by
  have hlt : ¬ (readU16 packet 0 ≥ zoneServerIps.length) := by
    simp [zoneServerIps]; omega
  unfold barrackHandlerStartGame
  simp only [check_size_true hsize, hslot, hrec, if_neg hlt]
  simp only [withCurrentCommander, startGameFromKey, startGameToKey] at hfail
  cases hu : ext.redisUpdateSession { m with session := { m.session with game :=
      { m.session.game with commanderSession := { currentCommander := some a } } } } with
  | false => simp [hu, withCurrentCommander]
  | true =>
    rw [hu] at hfail
    rcases hfail with h | h
    · exact absurd h (by simp)
    · simp [hu, h, withCurrentCommander]

/-- The game-session move fails, on sample data. -/
theorem start_game_move_failure_sample :
    ∃ r, barrackHandlerStartGame sampleConfig moveFailsCollab sampleWorker sampleMemOne
        sampleStartGamePacket [] = some r
      ∧ r.status = .PACKET_HANDLER_ERROR ∧ r.reply = []
      ∧ r.mem = withCurrentCommander sampleMemOne (some 0) :=
  start_game_store_failure sampleConfig moveFailsCollab sampleWorker sampleMemOne
    sampleStartGamePacket [] 0 sampleCommander rfl rfl rfl (by decide) (Or.inr rfl)

/-! ## The roster count under destroy and create

Commander destroy and commander create, the two other writers of
`commandersCount`, keep the count invariant. -/

/-- Emptying an occupied slot lowers the number of occupied slots by one. -/
theorem occupied_after_set_none (l : List (Option Nat)) :
    ∀ (k a : Nat), l.get? k = some (some a) →
      ((l.set k none).filter Option.isSome).length + 1 = (l.filter Option.isSome).length := by
  induction l with
  | nil => intro k a h; simp at h
  | cons x xs ih =>
    intro k a h
    cases k with
    | zero =>
      simp only [List.get?_cons_zero, Option.some.injEq] at h
      subst h
      simp [List.filter]
    | succ k =>
      simp only [List.get?_cons_succ] at h
      have := ih k a h
      cases x with
      | none => simpa [List.filter] using this
      | some b => simpa [List.filter] using this

/-- Filling an empty slot raises the number of occupied slots by one. -/
theorem occupied_after_set_some (l : List (Option Nat)) :
    ∀ (k p : Nat), l.get? k = some none →
      ((l.set k (some p)).filter Option.isSome).length = (l.filter Option.isSome).length + 1 := by
  induction l with
  | nil => intro k p h; simp at h
  | cons x xs ih =>
    intro k p h
    cases k with
    | zero =>
      simp only [List.get?_cons_zero, Option.some.injEq] at h
      subst h
      simp [List.filter]
    | succ k =>
      simp only [List.get?_cons_succ] at h
      have := ih k p h
      cases x with
      | none => simpa [List.filter] using this
      | some b => simpa [List.filter] using this

/-- When the roster scan of commander create ends without a match, the slot
`commanderIndex - 1` is empty if the scan went over it. -/
theorem scanSlots_free (commanders : List (Option Nat)) (k : Nat) :
    ∀ (n i : Nat), scanSlots commanders (k + 1) n i = some false → i ≤ k → k < i + n →
      commanders.get? k = some none := by
  intro n
  induction n with
  | zero => intro i _ h1 h2; omega
  | succ n ih =>
    intro i h h1 h2
    unfold scanSlots at h
    by_cases hik : i = k
    · subst hik
      cases hget : commanders.get? i with
      | none => rw [hget] at h; simp at h
      | some x =>
        cases x with
        | none => rfl
        | some b => rw [hget] at h; simp at h
    · cases hget : commanders.get? i with
      | none => rw [hget] at h; simp at h
      | some x =>
        rw [hget] at h
        have hne : ¬ ((k : Int) + 1 - 1 = (i : Int)) := by omega
        cases x with
        | none => exact ih (i + 1) (by simpa using h) (by omega) (by omega)
        | some b =>
          simp only [Nat.cast_add, Nat.cast_one] at h
          rw [if_neg hne] at h
          exact ih (i + 1) h (by omega) (by omega)

/-- Commander destroy keeps the count invariant, whatever the packet and the
outcome of the database delete. -/
theorem destroy_keeps_count_invariant (cfg : Config) (ext : Collab) (self : Worker) (m : Mem)
    (packet : List Nat) (reply : List Reply) (r : HandlerResult)
    (h : barrackHandlerCommanderDestroy cfg ext self m packet reply = some r)
    (hinv : commandersCountInvariant m.session) :
    commandersCountInvariant r.mem.session := by
  unfold barrackHandlerCommanderDestroy at h
  dsimp only at h
  split at h
  · simp at h
  split at h
  · cases h; exact hinv
  · split at h
    · simp at h
    · rename_i p hslot
      split at h
      · simp at h
      · split at h
        · cases h; exact hinv
        · rename_i a hdbg
          split at h
          · simp at h
          · split at h
            · cases h
              have hget : m.session.game.accountSession.commanders.get? (readU8 packet 0 - 1)
                  = some (some a) := by
                unfold rosterGet at hslot
                split at hslot
                · simp at hslot
                · exact hslot
              have hocc := occupied_after_set_none _ _ _ hget
              unfold commandersCountInvariant at hinv ⊢
              simp only
              split <;> omega
            · cases h; exact hinv

/-- Commander create keeps the count invariant on a roster of
`MAX_COMMANDERS_PER_ACCOUNT` slots, a number the field `commandersCount` can
hold, whatever the packet and the outcome of the database insert. -/
theorem create_keeps_count_invariant (cfg : Config) (ext : Collab) (self : Worker) (m : Mem)
    (packet : List Nat) (reply : List Reply) (r : HandlerResult)
    (hroster : m.session.game.accountSession.commanders.length = cfg.MAX_COMMANDERS_PER_ACCOUNT)
    (hwidth : cfg.MAX_COMMANDERS_PER_ACCOUNT < 2 ^ cfg.commandersCountBits)
    (h : barrackHandlerCommanderCreate cfg ext self m packet reply = some r)
    (hinv : commandersCountInvariant m.session) :
    commandersCountInvariant r.mem.session := by
  unfold barrackHandlerCommanderCreate commanderCreateFail at h
  dsimp only at h
  split at h
  · simp at h
  split at h
  · cases h; exact hinv
  · split at h
    · simp at h
    · split at h
      · simp at h; cases h; exact hinv
      · split at h
        · simp at h; cases h; exact hinv
        · split at h
          · simp at h; cases h; exact hinv
          · split at h
            · simp at h; cases h; exact hinv
            · split at h
              · simp at h
              · simp at h; cases h; exact hinv
              · rename_i hscan
                split at h
                · simp at h; cases h; exact hinv
                · split at h
                  · simp at h
                  · rename_i roster hset
                    cases h
                    unfold rosterSet at hset
                    split at hset
                    · simp at hset
                    · rename_i hne
                      split at hset
                      · rename_i hlt
                        simp only [Option.some.injEq] at hset
                        subst hset
                        obtain ⟨k, hk⟩ : ∃ k, readU8 packet 0 = k + 1 :=
                          ⟨readU8 packet 0 - 1, by omega⟩
                        rw [hk] at hscan hlt ⊢
                        have hfree := scanSlots_free _ k _ 0 hscan (Nat.zero_le _)
                          (by simp only [Nat.add_sub_cancel] at hlt; omega)
                        have hocc := fun p => occupied_after_set_some _ k p hfree
                        have hle := List.length_filter_le Option.isSome
                          (m.session.game.accountSession.commanders.set k
                            (some (malloc m.heap ‹Commander›).2))
                        rw [hocc, List.length_set] at hle
                        unfold commandersCountInvariant at hinv ⊢
                        simp only [Nat.add_sub_cancel]
                        rw [hocc, hinv, Nat.mod_eq_of_lt (by omega)]
                      · simp at hset

/-! ## Start game: rejections -/

/-- C11: a well-sized start-game packet whose `commanderIndex` (in
1..MAX_COMMANDERS_PER_ACCOUNT, on a roster of that many slots) designates an
empty slot, or whose `routerId` is 4 or more, makes the handler return
`PACKET_HANDLER_ERROR`, append no reply, leave the memory unchanged and call no
collaborator (neither the session update nor the game-session move). -/
theorem start_game_rejects_empty_slot_or_zone (cfg : Config) (ext : Collab) (self : Worker)
    (m : Mem) (packet : List Nat) (reply : List Reply)
    (hsize : packet.length = sizeofStartGamePacket)
    (hindex : 1 ≤ readU8 packet 2 ∧ readU8 packet 2 ≤ cfg.MAX_COMMANDERS_PER_ACCOUNT)
    (hroster : m.session.game.accountSession.commanders.length
      = cfg.MAX_COMMANDERS_PER_ACCOUNT)
    (hbad : rosterGet m.session.game.accountSession.commanders (readU8 packet 2) = some none
      ∨ 4 ≤ readU16 packet 0) :
    barrackHandlerStartGame cfg ext self m packet reply
      = some ⟨.PACKET_HANDLER_ERROR, m, reply, []⟩ := by
  have hlt : readU8 packet 2 - 1 < m.session.game.accountSession.commanders.length := by
    omega
  have hget : rosterGet m.session.game.accountSession.commanders (readU8 packet 2)
      = some (m.session.game.accountSession.commanders.get ⟨readU8 packet 2 - 1, hlt⟩) := by
    unfold rosterGet
    rw [if_neg (by omega), List.get?_eq_get hlt]
  unfold barrackHandlerStartGame
  simp only [check_size_true hsize]
  rw [hget] at hbad ⊢
  cases hp : m.session.game.accountSession.commanders.get ⟨readU8 packet 2 - 1, hlt⟩ with
  | none => simp
  | some a =>
    rw [hp] at hbad
    rcases hbad with h | h
    · simp at h
    · have hge : readU16 packet 0 ≥ zoneServerIps.length := by
        simpa [zoneServerIps] using h
      simp [hge]

/-- Witness of `start_game_rejects_empty_slot_or_zone`: slot 2 of the sample
roster is empty. -/
theorem start_game_rejects_empty_slot_or_zone_witness :
    barrackHandlerStartGame sampleConfig sampleCollab sampleWorker sampleMemOne
        emptySlotStartGamePacket []
      = some ⟨.PACKET_HANDLER_ERROR, sampleMemOne, [], []⟩ :=
  start_game_rejects_empty_slot_or_zone sampleConfig sampleCollab sampleWorker sampleMemOne
    emptySlotStartGamePacket [] rfl (by decide) rfl (Or.inl rfl)

/-- A start game for an occupied slot and router 4, on sample data. -/
theorem start_game_rejects_router_sample :
    barrackHandlerStartGame sampleConfig sampleCollab sampleWorker sampleMemOne
        badRouterStartGamePacket []
      = some ⟨.PACKET_HANDLER_ERROR, sampleMemOne, [], []⟩ :=
  rfl

/-! ## Start barrack: database failures -/

/-- When the count query of start barrack fails, the handler returns
`PACKET_HANDLER_ERROR`, appends no reply and leaves the memory unchanged. -/
theorem start_barrack_count_query_failure (cfg : Config) (ext : Collab) (self : Worker)
    (m : Mem) (packet : List Nat) (reply : List Reply)
    (hcount : ext.mySqlRequestCommandersByAccountId m.session.socket.accountId = none) :
    barrackHandlerStartBarrack cfg ext self m packet reply
      = some ⟨.PACKET_HANDLER_ERROR, m, reply,
          [Call.mySqlRequestCommandersByAccountId m.session.socket.accountId]⟩ := by
  unfold barrackHandlerStartBarrack
  simp [hcount]

/-- When the count query of start barrack answers `n` and the commander fetch
fails, the handler returns `PACKET_HANDLER_ERROR` and appends no reply; the
roster is unchanged and `commandersCount` is `n`. -/
theorem start_barrack_fetch_failure (cfg : Config) (ext : Collab) (self : Worker)
    (m : Mem) (packet : List Nat) (reply : List Reply) (n : Nat)
    (hcount : ext.mySqlRequestCommandersByAccountId m.session.socket.accountId = some n)
    (hfetch : ext.mySqlGetCommanders n = none) :
    barrackHandlerStartBarrack cfg ext self m packet reply
      = some ⟨.PACKET_HANDLER_ERROR, withCommandersCount m n, reply,
          [Call.mySqlRequestCommandersByAccountId m.session.socket.accountId,
            Call.mySqlGetCommanders n]⟩ := by
  unfold barrackHandlerStartBarrack
  simp [hcount, hfetch, withCommandersCount]

/-- C12 at the failing input: on the sample session with one commander
(`commandersCount` 1), a start-barrack call whose count query answers 3 and
whose commander fetch fails returns `PACKET_HANDLER_ERROR` with no reply and the
roster as before, but `commandersCount` is 3: the session is changed.  When the
count query itself fails the session is unchanged, as the claim says. -/
theorem start_barrack_fetch_failure_changes_count :
    barrackHandlerStartBarrack sampleConfig rosterFetchFailsCollab sampleWorker sampleMemOne
        [] []
      = some ⟨.PACKET_HANDLER_ERROR, withCommandersCount sampleMemOne 3, [],
          [Call.mySqlRequestCommandersByAccountId 0, Call.mySqlGetCommanders 3]⟩
    ∧ withCommandersCount sampleMemOne 3 ≠ sampleMemOne
    ∧ sampleMemOne.session.game.accountSession.commandersCount = 1
    ∧ (withCommandersCount sampleMemOne 3).session.game.accountSession.commandersCount = 3
    ∧ barrackHandlerStartBarrack sampleConfig countQueryFailsCollab sampleWorker sampleMemOne
        [] []
      = some ⟨.PACKET_HANDLER_ERROR, sampleMemOne, [],
          [Call.mySqlRequestCommandersByAccountId 0]⟩ :=
  ⟨rfl, by decide, rfl, rfl, rfl⟩

/-! ## Commander destroy: database failure -/

/-- C16: a well-sized commander-destroy packet whose index designates an
occupied slot (pointing to a live record) and whose database delete fails
leaves the memory unchanged (the slot, its record and `commandersCount`
included), appends exactly one `BC_MESSAGE_CUSTOM_MSG` message with the "try
again" text and no destroy acknowledgement, and returns `PACKET_HANDLER_OK`. -/
theorem destroy_delete_failure (cfg : Config) (ext : Collab) (self : Worker) (m : Mem)
    (packet : List Nat) (reply : List Reply) (a : Nat) (commander : Commander)
    (hsize : packet.length = sizeofCommanderDestroyPacket)
    (hslot : rosterGet m.session.game.accountSession.commanders (readU8 packet 0)
      = some (some a))
    (hrec : deref m.heap (some a) = some commander)
    (hdel : ext.MySqlCommanderDelete commander.commanderId = false) :
    barrackHandlerCommanderDestroy cfg ext self m packet reply
      = some ⟨.PACKET_HANDLER_OK, m,
          reply ++ [Reply.message .BC_MESSAGE_CUSTOM_MSG
            "There was a problem while deleting your Character. Please try again."],
          [Call.MySqlCommanderDelete commander.commanderId]⟩ := by
  unfold barrackHandlerCommanderDestroy
  simp only [destroy_dbg_read cfg hsize, Bool.false_eq_true, if_false, check_size_true hsize, hslot, hrec, hdel]
  simp [destroyFailedText]

/-- Witness of `destroy_delete_failure` on the sample session with one
commander. -/
theorem destroy_delete_failure_witness :
    barrackHandlerCommanderDestroy sampleConfig deleteFailsCollab sampleWorker sampleMemOne
        [1] []
      = some ⟨.PACKET_HANDLER_OK, sampleMemOne,
          [] ++ [Reply.message .BC_MESSAGE_CUSTOM_MSG
            "There was a problem while deleting your Character. Please try again."],
          [Call.MySqlCommanderDelete sampleCommander.commanderId]⟩ :=
  destroy_delete_failure sampleConfig deleteFailsCollab sampleWorker sampleMemOne
    [1] [] 0 sampleCommander rfl rfl rfl rfl

/-! ## Commander move -/

/-- What a well-sized commander move does when a commander is selected and its
record is live: the first `sizeof(PositionXZ)` bytes of the submitted position
replace the first bytes of the stored position, the other bytes of the stored
position stay, the reply carries the stored position after the copy. -/
theorem move_copies_sizeof_PositionXZ (cfg : Config) (ext : Collab) (self : Worker) (m : Mem)
    (packet : List Nat) (reply : List Reply) (a : Nat) (commander : Commander)
    (hsize : packet.length = sizeofCommanderMovePacket)
    (hcur : m.session.game.commanderSession.currentCommander = some a)
    (hrec : deref m.heap (some a) = some commander)
    (hpos : commander.pos.length = 12)
    (hxz : cfg.sizeofPositionXZ ≤ 12) :
    barrackHandlerCommanderMove cfg ext self m packet reply
      = some ⟨.PACKET_HANDLER_UPDATE_SESSION,
          withCommanderPos m a commander
            ((bytesAt packet 1 12).take cfg.sizeofPositionXZ
              ++ commander.pos.drop cfg.sizeofPositionXZ),
          reply ++ [Reply.commanderMoveOk m.session.socket.accountId (readU8 packet 0)
            ((bytesAt packet 1 12).take cfg.sizeofPositionXZ
              ++ commander.pos.drop cfg.sizeofPositionXZ)],
          []⟩ := by
  have hsrc : (bytesAt packet 1 12).length = 12 := by
    simp only [sizeofCommanderMovePacket] at hsize
    simp [bytesAt, hsize]
  unfold barrackHandlerCommanderMove
  simp only [check_size_true hsize, hcur, hrec]
  have hcopy : memcpy commander.pos (bytesAt packet 1 12) cfg.sizeofPositionXZ
      = some ((bytesAt packet 1 12).take cfg.sizeofPositionXZ
          ++ commander.pos.drop cfg.sizeofPositionXZ) := by
    unfold memcpy
    rw [if_pos ⟨by omega, by omega⟩]
  simp [hcopy, withCommanderPos]

/-- C20 at the failing input: with `sizeof(PositionXZ)` = 8, the selected
commander at position bytes (0,0,152,65 | 0,0,224,65 | 0,0,232,65) and the
submitted position bytes (1,2,3,4 | 5,6,7,8 | 9,10,11,12), the stored position
after the move is (1,2,3,4 | 5,6,7,8 | 0,0,232,65): the third coordinate is the
old one, and the acknowledgement carries that position, not the submitted
one. -/
theorem move_leaves_third_coordinate :
    barrackHandlerCommanderMove sampleConfig sampleCollab sampleWorker sampleMemSelected
        sampleMovePacket []
      = some ⟨.PACKET_HANDLER_UPDATE_SESSION,
          withCommanderPos sampleMemSelected 0 sampleCommander
            [1, 2, 3, 4, 5, 6, 7, 8, 0, 0, 232, 65],
          [Reply.commanderMoveOk 0 1 [1, 2, 3, 4, 5, 6, 7, 8, 0, 0, 232, 65]], []⟩
    ∧ bytesAt sampleMovePacket 1 12 = [1, 2, 3, 4, 5, 6, 7, 8, 9, 10, 11, 12]
    ∧ deref (withCommanderPos sampleMemSelected 0 sampleCommander
        [1, 2, 3, 4, 5, 6, 7, 8, 0, 0, 232, 65]).heap (some 0)
      = some { sampleCommander with pos := [1, 2, 3, 4, 5, 6, 7, 8, 0, 0, 232, 65] }
    ∧ [1, 2, 3, 4, 5, 6, 7, 8, 0, 0, 232, 65] ≠ bytesAt sampleMovePacket 1 12 :=
  ⟨rfl, rfl, rfl, by decide⟩

/-! ## Commander create: insert -/

/-- The roster scan of commander create ends without a match when slot `k` is
empty and every slot it reads is inside the roster. -/
theorem scanSlots_empty (commanders : List (Option Nat)) (k : Nat)
    (hfree : commanders.get? k = some none) :
    ∀ (n i : Nat), i + n ≤ commanders.length → scanSlots commanders (k + 1) n i = some false := by
  intro n
  induction n with
  | zero => intro i _; rfl
  | succ n ih =>
    intro i h
    have hlt : i < commanders.length := by omega
    unfold scanSlots
    rw [List.get?_eq_get hlt]
    cases hx : commanders.get ⟨i, hlt⟩ with
    | none => exact ih (i + 1) (by omega)
    | some b =>
      have hik : i ≠ k := by
        intro hik
        subst hik
        rw [List.get?_eq_get hlt, hx] at hfree
        simp at hfree
      have hne : ¬ ((k : Int) + 1 - 1 = (i : Int)) := by omega
      simp only [Nat.cast_add, Nat.cast_one]
      rw [if_neg hne]
      exact ih (i + 1) (by omega)

/-- A job code is known to the `switch` exactly when it is one of the four job
constants; the class is then the one of the first constant it equals. -/
theorem classOfJob_known (cfg : Config) (jobId : Nat)
    (hjob : jobId = cfg.COMMANDER_JOB_WARRIOR ∨ jobId = cfg.COMMANDER_JOB_ARCHER
      ∨ jobId = cfg.COMMANDER_JOB_WIZARD ∨ jobId = cfg.COMMANDER_JOB_CLERIC) :
    ∃ classId, classOfJob cfg jobId = some classId
      ∧ ((jobId = cfg.COMMANDER_JOB_WARRIOR ∧ classId = cfg.COMMANDER_CLASS_WARRIOR)
        ∨ (jobId = cfg.COMMANDER_JOB_ARCHER ∧ classId = cfg.COMMANDER_CLASS_ARCHER)
        ∨ (jobId = cfg.COMMANDER_JOB_WIZARD ∧ classId = cfg.COMMANDER_CLASS_WIZARD)
        ∨ (jobId = cfg.COMMANDER_JOB_CLERIC ∧ classId = cfg.COMMANDER_CLASS_CLERIC)) := by
  unfold classOfJob
  by_cases h1 : jobId = cfg.COMMANDER_JOB_WARRIOR
  · exact ⟨_, by rw [if_pos h1], Or.inl ⟨h1, rfl⟩⟩
  · by_cases h2 : jobId = cfg.COMMANDER_JOB_ARCHER
    · exact ⟨_, by rw [if_neg h1, if_pos h2], Or.inr (Or.inl ⟨h2, rfl⟩)⟩
    · by_cases h3 : jobId = cfg.COMMANDER_JOB_WIZARD
      · exact ⟨_, by rw [if_neg h1, if_neg h2, if_pos h3], Or.inr (Or.inr (Or.inl ⟨h3, rfl⟩))⟩
      · have h4 : jobId = cfg.COMMANDER_JOB_CLERIC := by tauto
        exact ⟨_, by rw [if_neg h1, if_neg h2, if_neg h3, if_pos h4],
          Or.inr (Or.inr (Or.inr ⟨h4, rfl⟩))⟩

/-- A job code that is none of the four job constants takes the `default`
label of the `switch`. -/
theorem classOfJob_unknown (cfg : Config) (jobId : Nat)
    (h : jobId ≠ cfg.COMMANDER_JOB_WARRIOR ∧ jobId ≠ cfg.COMMANDER_JOB_ARCHER
      ∧ jobId ≠ cfg.COMMANDER_JOB_WIZARD ∧ jobId ≠ cfg.COMMANDER_JOB_CLERIC) :
    classOfJob cfg jobId = none := by
  unfold classOfJob
  rw [if_neg h.1, if_neg h.2.1, if_neg h.2.2.1, if_neg h.2.2.2]

/-- A commander create that passes every validation, for an empty slot of a
roster of `MAX_COMMANDERS_PER_ACCOUNT` slots, reaches the database insert; what
follows depends on the insert only. -/
theorem create_reaches_insert (cfg : Config) (ext : Collab) (self : Worker) (m : Mem)
    (packet : List Nat) (reply : List Reply) (len classId : Nat)
    (hsize : packet.length = sizeofCommanderCreatePacket cfg)
    (hname : strlen (packet.drop 1) = some len) (hlen : len ≠ 0)
    (hprint : ∀ c ∈ (packet.drop 1).take len, isprint c = true)
    (hjob : classOfJob cfg (readU16 packet (1 + (cfg.COMMANDER_NAME_SIZE + 1))) = some classId)
    (hgender : genderAccepted cfg (readU8 packet (1 + (cfg.COMMANDER_NAME_SIZE + 1) + 2)) = true)
    (hindex : 1 ≤ readU8 packet 0 ∧ readU8 packet 0 ≤ cfg.MAX_COMMANDERS_PER_ACCOUNT)
    (hroster : m.session.game.accountSession.commanders.length
      = cfg.MAX_COMMANDERS_PER_ACCOUNT)
    (hslot : rosterGet m.session.game.accountSession.commanders (readU8 packet 0)
      = some none) :
    barrackHandlerCommanderCreate cfg ext self m packet reply
      = match ext.mySqlCommanderInsert m.session.socket.accountId
          (createdCommander cfg ext m packet len classId) with
        | none =>
          some ⟨.PACKET_HANDLER_ERROR, m, reply, createCalls cfg ext m packet len classId⟩
        | some inserted =>
          some ⟨.PACKET_HANDLER_UPDATE_SESSION,
            withCreatedCommander cfg m (readU8 packet 0) inserted,
            reply ++ [Reply.commanderCreate inserted (readU8 packet 0)],
            createCalls cfg ext m packet len classId⟩ := by
  obtain ⟨k, hk⟩ : ∃ k, readU8 packet 0 = k + 1 := ⟨readU8 packet 0 - 1, by omega⟩
  rw [hk] at hslot hindex
  have hget : m.session.game.accountSession.commanders.get? k = some none := by
    simpa [rosterGet] using hslot
  have hscan := scanSlots_empty _ k hget cfg.MAX_COMMANDERS_PER_ACCOUNT 0 (by omega)
  have hset : rosterSet m.session.game.accountSession.commanders (k + 1)
      (some m.heap.length)
      = some (m.session.game.accountSession.commanders.set k (some m.heap.length)) := by
    unfold rosterSet
    rw [if_neg (by omega), if_pos (by simp only [Nat.add_sub_cancel]; omega)]
    simp
  unfold barrackHandlerCommanderCreate
  simp only [create_dbg_read cfg hsize, Bool.false_eq_true, if_false, check_size_true hsize, hname, hk, hjob, hgender, hscan,
    any_not_isprint_eq_false hprint, createdCommander, createCalls, withCreatedCommander,
    malloc, hset]
  cases ext.mySqlCommanderInsert m.session.socket.accountId _ with
  | none => simp [hlen, commanderCreateFail]
  | some inserted => simp [hlen]

/-- The length `strlen` finds is smaller than the number of bytes scanned. -/
theorem strlen_lt_length : ∀ (l : List Nat) (n : Nat), strlen l = some n → n < l.length := by
  intro l
  induction l with
  | nil => intro n h; simp [strlen] at h
  | cons b bs ih =>
    intro n h
    unfold strlen at h
    split at h
    · simp only [Option.some.injEq] at h
      subst h
      simp
    · cases hbs : strlen bs with
      | none => rw [hbs] at h; simp at h
      | some k =>
        rw [hbs] at h
        simp only [Option.map_some', Option.some.injEq] at h
        subst h
        have := ih k hbs
        simp only [List.length_cons]
        omega

/-- The library function `strncpy` with a string that fits the array, terminator
included: the array holds the string and zero bytes after it. -/
theorem strncpy_of_fits (n : Nat) (src : List Nat) (h : src.length < n) :
    strncpy n src = src ++ List.replicate (n - src.length) 0 := by
  unfold strncpy
  rw [List.take_of_length_le (by omega)]

/-- C13: a well-sized commander-create packet with a non-empty printable name
(that fits the name array of a record), a known job code, gender male or female
and `commanderIndex` K in 1..MAX_COMMANDERS_PER_ACCOUNT designating an empty
slot, in a session whose `commandersCount` is below the largest value of the
field, when the database insert succeeds (returning the record it was given with
its commander id), makes slot K point to a new record whose name, gender and
hair id are the submitted ones, whose class is the one tied to the submitted job
code and whose account id is the one of the session; `commandersCount` is one
more, every other slot is as before, exactly one creation reply is appended and
the handler returns `PACKET_HANDLER_UPDATE_SESSION`. -/
theorem create_into_empty_slot_succeeds (cfg : Config) (ext : Collab) (self : Worker) (m : Mem)
    (packet : List Nat) (reply : List Reply) (len id : Nat)
    (hsize : packet.length = sizeofCommanderCreatePacket cfg)
    (hname : strlen (packet.drop 1) = some len) (hlen : len ≠ 0)
    (hprint : ∀ c ∈ (packet.drop 1).take len, isprint c = true)
    (hfit : len < ext.commanderInit.appearance.commanderName.length)
    (hjob : readU16 packet (1 + (cfg.COMMANDER_NAME_SIZE + 1)) = cfg.COMMANDER_JOB_WARRIOR
      ∨ readU16 packet (1 + (cfg.COMMANDER_NAME_SIZE + 1)) = cfg.COMMANDER_JOB_ARCHER
      ∨ readU16 packet (1 + (cfg.COMMANDER_NAME_SIZE + 1)) = cfg.COMMANDER_JOB_WIZARD
      ∨ readU16 packet (1 + (cfg.COMMANDER_NAME_SIZE + 1)) = cfg.COMMANDER_JOB_CLERIC)
    (hgender : readU8 packet (1 + (cfg.COMMANDER_NAME_SIZE + 1) + 2) = cfg.COMMANDER_GENDER_MALE
      ∨ readU8 packet (1 + (cfg.COMMANDER_NAME_SIZE + 1) + 2) = cfg.COMMANDER_GENDER_FEMALE)
    (hindex : 1 ≤ readU8 packet 0 ∧ readU8 packet 0 ≤ cfg.MAX_COMMANDERS_PER_ACCOUNT)
    (hroster : m.session.game.accountSession.commanders.length
      = cfg.MAX_COMMANDERS_PER_ACCOUNT)
    (hslot : rosterGet m.session.game.accountSession.commanders (readU8 packet 0)
      = some none)
    (hcount : m.session.game.accountSession.commandersCount + 1 < 2 ^ cfg.commandersCountBits)
    (hins : ∀ c, ext.mySqlCommanderInsert m.session.socket.accountId c
      = some { c with commanderId := id }) :
    ∃ classId record,
      ((readU16 packet (1 + (cfg.COMMANDER_NAME_SIZE + 1)) = cfg.COMMANDER_JOB_WARRIOR
          ∧ classId = cfg.COMMANDER_CLASS_WARRIOR)
        ∨ (readU16 packet (1 + (cfg.COMMANDER_NAME_SIZE + 1)) = cfg.COMMANDER_JOB_ARCHER
          ∧ classId = cfg.COMMANDER_CLASS_ARCHER)
        ∨ (readU16 packet (1 + (cfg.COMMANDER_NAME_SIZE + 1)) = cfg.COMMANDER_JOB_WIZARD
          ∧ classId = cfg.COMMANDER_CLASS_WIZARD)
        ∨ (readU16 packet (1 + (cfg.COMMANDER_NAME_SIZE + 1)) = cfg.COMMANDER_JOB_CLERIC
          ∧ classId = cfg.COMMANDER_CLASS_CLERIC))
      ∧ record.appearance.classId = classId
      ∧ record.appearance.commanderName
        = (packet.drop 1).take len
          ++ List.replicate (ext.commanderInit.appearance.commanderName.length - len) 0
      ∧ record.appearance.gender = readU8 packet (1 + (cfg.COMMANDER_NAME_SIZE + 1) + 2)
      ∧ record.appearance.hairId
        = readU8 packet (1 + (cfg.COMMANDER_NAME_SIZE + 1) + 2 + 1 + 4 + 4 + 4)
      ∧ record.appearance.accountId = m.session.socket.accountId
      ∧ barrackHandlerCommanderCreate cfg ext self m packet reply
        = some ⟨.PACKET_HANDLER_UPDATE_SESSION,
            withCreatedCommander cfg m (readU8 packet 0) record,
            reply ++ [Reply.commanderCreate record (readU8 packet 0)],
            createCalls cfg ext m packet len classId⟩
      ∧ rosterGet (withCreatedCommander cfg m (readU8 packet 0) record).session.game.accountSession.commanders
          (readU8 packet 0) = some (some m.heap.length)
      ∧ deref (withCreatedCommander cfg m (readU8 packet 0) record).heap (some m.heap.length)
        = some record
      ∧ (∀ j, j ≠ readU8 packet 0 →
          rosterGet (withCreatedCommander cfg m (readU8 packet 0) record).session.game.accountSession.commanders j
            = rosterGet m.session.game.accountSession.commanders j)
      ∧ (withCreatedCommander cfg m (readU8 packet 0) record).session.game.accountSession.commandersCount
        = m.session.game.accountSession.commandersCount + 1 := by
  obtain ⟨classId, hclass, htied⟩ := classOfJob_known cfg _ hjob
  have hacc : genderAccepted cfg (readU8 packet (1 + (cfg.COMMANDER_NAME_SIZE + 1) + 2))
      = true := by
    unfold genderAccepted
    rcases hgender with h | h <;> simp [h]
  have hrun := create_reaches_insert cfg ext self m packet reply len classId hsize hname hlen
    hprint hclass hacc hindex hroster hslot
  rw [hins] at hrun
  have htake : ((packet.drop 1).take len).length = len := by
    have := strlen_lt_length _ _ hname
    rw [List.length_take]
    omega
  have hlt : readU8 packet 0 - 1 < m.session.game.accountSession.commanders.length := by
    omega
  refine ⟨classId, { createdCommander cfg ext m packet len classId with commanderId := id },
    htied, rfl, ?_, rfl, rfl, rfl, hrun, ?_, ?_, ?_, Nat.mod_eq_of_lt hcount⟩
  · show strncpy _ _ = _
    rw [strncpy_of_fits _ _ (by rw [htake]; exact hfit), htake]
  · unfold rosterGet withCreatedCommander
    rw [if_neg (by omega)]
    simp [List.getElem?_set, hlt]
  · simp [deref, withCreatedCommander]
  · intro j hj
    unfold rosterGet withCreatedCommander
    by_cases h0 : j = 0
    · simp [h0]
    · rw [if_neg h0, if_neg h0]
      simp only
      rw [List.get?_eq_getElem?, List.get?_eq_getElem?, List.getElem?_set_ne]
      omega

/-- Witness of `create_into_empty_slot_succeeds`: the name "Hi", job warrior,
gender male, for the empty slot 2 of the sample roster. -/
theorem create_into_empty_slot_succeeds_witness :
    ∃ classId record,
      ((readU16 (sampleCreatePacket 2) (1 + (sampleConfig.COMMANDER_NAME_SIZE + 1)) = sampleConfig.COMMANDER_JOB_WARRIOR
          ∧ classId = sampleConfig.COMMANDER_CLASS_WARRIOR)
        ∨ (readU16 (sampleCreatePacket 2) (1 + (sampleConfig.COMMANDER_NAME_SIZE + 1)) = sampleConfig.COMMANDER_JOB_ARCHER
          ∧ classId = sampleConfig.COMMANDER_CLASS_ARCHER)
        ∨ (readU16 (sampleCreatePacket 2) (1 + (sampleConfig.COMMANDER_NAME_SIZE + 1)) = sampleConfig.COMMANDER_JOB_WIZARD
          ∧ classId = sampleConfig.COMMANDER_CLASS_WIZARD)
        ∨ (readU16 (sampleCreatePacket 2) (1 + (sampleConfig.COMMANDER_NAME_SIZE + 1)) = sampleConfig.COMMANDER_JOB_CLERIC
          ∧ classId = sampleConfig.COMMANDER_CLASS_CLERIC))
      ∧ record.appearance.classId = classId
      ∧ record.appearance.commanderName
        = ((sampleCreatePacket 2).drop 1).take 2
          ++ List.replicate (sampleCollab.commanderInit.appearance.commanderName.length - 2) 0
      ∧ record.appearance.gender = readU8 (sampleCreatePacket 2) (1 + (sampleConfig.COMMANDER_NAME_SIZE + 1) + 2)
      ∧ record.appearance.hairId
        = readU8 (sampleCreatePacket 2) (1 + (sampleConfig.COMMANDER_NAME_SIZE + 1) + 2 + 1 + 4 + 4 + 4)
      ∧ record.appearance.accountId = sampleMemOne.session.socket.accountId
      ∧ barrackHandlerCommanderCreate sampleConfig sampleCollab sampleWorker sampleMemOne (sampleCreatePacket 2) []
        = some ⟨.PACKET_HANDLER_UPDATE_SESSION,
            withCreatedCommander sampleConfig sampleMemOne (readU8 (sampleCreatePacket 2) 0) record,
            [] ++ [Reply.commanderCreate record (readU8 (sampleCreatePacket 2) 0)],
            createCalls sampleConfig sampleCollab sampleMemOne (sampleCreatePacket 2) 2 classId⟩
      ∧ rosterGet (withCreatedCommander sampleConfig sampleMemOne (readU8 (sampleCreatePacket 2) 0) record).session.game.accountSession.commanders
          (readU8 (sampleCreatePacket 2) 0) = some (some sampleMemOne.heap.length)
      ∧ deref (withCreatedCommander sampleConfig sampleMemOne (readU8 (sampleCreatePacket 2) 0) record).heap (some sampleMemOne.heap.length)
        = some record
      ∧ (∀ j, j ≠ readU8 (sampleCreatePacket 2) 0 →
          rosterGet (withCreatedCommander sampleConfig sampleMemOne (readU8 (sampleCreatePacket 2) 0) record).session.game.accountSession.commanders j
            = rosterGet sampleMemOne.session.game.accountSession.commanders j)
      ∧ (withCreatedCommander sampleConfig sampleMemOne (readU8 (sampleCreatePacket 2) 0) record).session.game.accountSession.commandersCount
        = sampleMemOne.session.game.accountSession.commandersCount + 1 :=
  create_into_empty_slot_succeeds sampleConfig sampleCollab sampleWorker sampleMemOne
    (sampleCreatePacket 2) [] 2 10 rfl rfl (by decide) (by decide) (by decide)
    (Or.inl rfl) (Or.inl rfl) (by decide) rfl rfl (by decide) (fun _ => rfl)

/-- C14: a well-sized commander-create packet that passes every validation
(name, job, gender, empty target slot of a roster of MAX_COMMANDERS_PER_ACCOUNT
slots) and whose database insert fails makes the handler return
`PACKET_HANDLER_ERROR`, append no reply and leave the memory unchanged (roster
and `commandersCount` as before); the only collaborator calls are the two random
numbers and the insert. -/
theorem create_insert_failure (cfg : Config) (ext : Collab) (self : Worker) (m : Mem)
    (packet : List Nat) (reply : List Reply) (len : Nat)
    (hsize : packet.length = sizeofCommanderCreatePacket cfg)
    (hname : strlen (packet.drop 1) = some len) (hlen : len ≠ 0)
    (hprint : ∀ c ∈ (packet.drop 1).take len, isprint c = true)
    (hjob : readU16 packet (1 + (cfg.COMMANDER_NAME_SIZE + 1)) = cfg.COMMANDER_JOB_WARRIOR
      ∨ readU16 packet (1 + (cfg.COMMANDER_NAME_SIZE + 1)) = cfg.COMMANDER_JOB_ARCHER
      ∨ readU16 packet (1 + (cfg.COMMANDER_NAME_SIZE + 1)) = cfg.COMMANDER_JOB_WIZARD
      ∨ readU16 packet (1 + (cfg.COMMANDER_NAME_SIZE + 1)) = cfg.COMMANDER_JOB_CLERIC)
    (hgender : readU8 packet (1 + (cfg.COMMANDER_NAME_SIZE + 1) + 2) = cfg.COMMANDER_GENDER_MALE
      ∨ readU8 packet (1 + (cfg.COMMANDER_NAME_SIZE + 1) + 2) = cfg.COMMANDER_GENDER_FEMALE)
    (hindex : 1 ≤ readU8 packet 0 ∧ readU8 packet 0 ≤ cfg.MAX_COMMANDERS_PER_ACCOUNT)
    (hroster : m.session.game.accountSession.commanders.length
      = cfg.MAX_COMMANDERS_PER_ACCOUNT)
    (hslot : rosterGet m.session.game.accountSession.commanders (readU8 packet 0)
      = some none)
    (hins : ∀ c, ext.mySqlCommanderInsert m.session.socket.accountId c = none) :
    ∃ classId, barrackHandlerCommanderCreate cfg ext self m packet reply
      = some ⟨.PACKET_HANDLER_ERROR, m, reply, createCalls cfg ext m packet len classId⟩ := by
  obtain ⟨classId, hclass, _⟩ := classOfJob_known cfg _ hjob
  have hacc : genderAccepted cfg (readU8 packet (1 + (cfg.COMMANDER_NAME_SIZE + 1) + 2))
      = true := by
    unfold genderAccepted
    rcases hgender with h | h <;> simp [h]
  have hrun := create_reaches_insert cfg ext self m packet reply len classId hsize hname hlen
    hprint hclass hacc hindex hroster hslot
  rw [hins] at hrun
  exact ⟨classId, hrun⟩

/-- Witness of `create_insert_failure`: the sample packet for the empty slot 2
with a database whose insert fails. -/
theorem create_insert_failure_witness :
    ∃ classId, barrackHandlerCommanderCreate sampleConfig insertFailsCollab sampleWorker
        sampleMemOne (sampleCreatePacket 2) []
      = some ⟨.PACKET_HANDLER_ERROR, sampleMemOne, [],
          createCalls sampleConfig insertFailsCollab sampleMemOne (sampleCreatePacket 2) 2
            classId⟩ :=
  create_insert_failure sampleConfig insertFailsCollab sampleWorker sampleMemOne
    (sampleCreatePacket 2) [] 2 rfl rfl (by decide) (by decide)
    (Or.inl rfl) (Or.inl rfl) (by decide) rfl rfl (fun _ => rfl)

/-- C15: a well-sized commander-create packet with a non-empty printable name
whose job code is none of the four known job codes, or whose gender code is
neither male nor female (the code `COMMANDER_GENDER_BOTH` included), calls no
collaborator (no database insert), leaves the memory unchanged, appends exactly
one `BC_MESSAGE_CREATE_COMMANDER_FAIL` message and returns
`PACKET_HANDLER_OK`. -/
theorem create_rejects_job_or_gender (cfg : Config) (ext : Collab) (self : Worker) (m : Mem)
    (packet : List Nat) (reply : List Reply) (len : Nat)
    (hsize : packet.length = sizeofCommanderCreatePacket cfg)
    (hname : strlen (packet.drop 1) = some len) (hlen : len ≠ 0)
    (hprint : ∀ c ∈ (packet.drop 1).take len, isprint c = true)
    (hbad :
      (readU16 packet (1 + (cfg.COMMANDER_NAME_SIZE + 1)) ≠ cfg.COMMANDER_JOB_WARRIOR
        ∧ readU16 packet (1 + (cfg.COMMANDER_NAME_SIZE + 1)) ≠ cfg.COMMANDER_JOB_ARCHER
        ∧ readU16 packet (1 + (cfg.COMMANDER_NAME_SIZE + 1)) ≠ cfg.COMMANDER_JOB_WIZARD
        ∧ readU16 packet (1 + (cfg.COMMANDER_NAME_SIZE + 1)) ≠ cfg.COMMANDER_JOB_CLERIC)
      ∨ (readU8 packet (1 + (cfg.COMMANDER_NAME_SIZE + 1) + 2) ≠ cfg.COMMANDER_GENDER_MALE
        ∧ readU8 packet (1 + (cfg.COMMANDER_NAME_SIZE + 1) + 2)
          ≠ cfg.COMMANDER_GENDER_FEMALE)) :
    barrackHandlerCommanderCreate cfg ext self m packet reply
      = some ⟨.PACKET_HANDLER_OK, m,
          reply ++ [Reply.message .BC_MESSAGE_CREATE_COMMANDER_FAIL ""], []⟩ := by
  unfold barrackHandlerCommanderCreate
  simp only [create_dbg_read cfg hsize, Bool.false_eq_true, if_false, check_size_true hsize, hname, any_not_isprint_eq_false hprint]
  rw [if_neg hlen]
  cases hclass : classOfJob cfg (readU16 packet (1 + (cfg.COMMANDER_NAME_SIZE + 1))) with
  | none => simp [commanderCreateFail]
  | some classId =>
    rcases hbad with h | h
    · rw [classOfJob_unknown cfg _ h] at hclass
      simp at hclass
    · have hacc : genderAccepted cfg (readU8 packet (1 + (cfg.COMMANDER_NAME_SIZE + 1) + 2))
          = false := by
        unfold genderAccepted
        simp [h.1, h.2]
      simp [hacc, commanderCreateFail]

/-- Witness of `create_rejects_job_or_gender`: the unknown job code 9. -/
theorem create_rejects_job_or_gender_witness :
    barrackHandlerCommanderCreate sampleConfig sampleCollab sampleWorker sampleMemOne
        unknownJobCreatePacket []
      = some ⟨.PACKET_HANDLER_OK, sampleMemOne,
          [] ++ [Reply.message .BC_MESSAGE_CREATE_COMMANDER_FAIL ""], []⟩ :=
  create_rejects_job_or_gender sampleConfig sampleCollab sampleWorker sampleMemOne
    unknownJobCreatePacket [] 2 rfl rfl (by decide) (by decide)
    (Or.inl (by decide))

/-- A commander create with the gender code `COMMANDER_GENDER_BOTH`, on sample
data. -/
theorem create_rejects_gender_both_sample :
    readU8 bothGenderCreatePacket (1 + (sampleConfig.COMMANDER_NAME_SIZE + 1) + 2)
      = sampleConfig.COMMANDER_GENDER_BOTH
    ∧ barrackHandlerCommanderCreate sampleConfig sampleCollab sampleWorker sampleMemOne
        bothGenderCreatePacket []
      = some ⟨.PACKET_HANDLER_OK, sampleMemOne,
          [Reply.message .BC_MESSAGE_CREATE_COMMANDER_FAIL ""], []⟩ :=
  ⟨rfl, rfl⟩

/-! ## Barrack name change -/

/-- A live record is in a cell of the heap. -/
theorem deref_lt_length (heap : List (Option Commander)) (a : Nat) (commander : Commander)
    (h : deref heap (some a) = some commander) : a < heap.length := by
  by_contra hge
  have hnone : heap.get? a = none := List.get?_eq_none.mpr (by omega)
  unfold deref at h
  simp only [hnone] at h
  exact absurd h (by simp)

/-- C17: with a selected commander whose record is live, a well-sized
name-change packet with a non-empty printable name N (that fits both family-name
arrays) for which the database reports `BC_BARRACKNAME_CHANGE_OK`, that
enumerator being 0, stores N in the family name of the selected commander and
in the family name of the account, appends exactly one name-change reply with
the status `BC_BARRACKNAME_CHANGE_OK` and the name N, and returns
`PACKET_HANDLER_UPDATE_SESSION`. -/
theorem rename_accepted_updates_names (cfg : Config) (ext : Collab) (self : Worker) (m : Mem)
    (packet : List Nat) (reply : List Reply) (a len : Nat) (commander : Commander)
    (hsize : packet.length = sizeofBarrackNameChangePacket)
    (hcur : m.session.game.commanderSession.currentCommander = some a)
    (hrec : deref m.heap (some a) = some commander)
    (hname : strlen packet = some len) (hlen : len ≠ 0)
    (hprint : ∀ c ∈ packet.take len, isprint c = true)
    (hfit : len < commander.appearance.familyName.length)
    (hfitAccount : len < m.session.game.accountSession.familyName.length)
    (hok : cfg.BC_BARRACKNAME_CHANGE_OK = 0)
    (hdb : ext.mySqlSetFamilyName m.session.game.accountSession (bytesAt packet 0 64)
      = cfg.BC_BARRACKNAME_CHANGE_OK) :
    barrackHandlerBarrackNameChange cfg ext self m packet reply
      = some ⟨.PACKET_HANDLER_UPDATE_SESSION,
          withFamilyName m a commander
            (packet.take len
              ++ List.replicate (commander.appearance.familyName.length - len) 0)
            (packet.take len
              ++ List.replicate (m.session.game.accountSession.familyName.length - len) 0),
          reply ++ [Reply.barrackNameChange cfg.BC_BARRACKNAME_CHANGE_OK
            (packet.take len
              ++ List.replicate (commander.appearance.familyName.length - len) 0)],
          [Call.mySqlSetFamilyName m.session.game.accountSession (bytesAt packet 0 64)]⟩ := by
  have htake : (packet.take len).length = len := by
    have := strlen_lt_length _ _ hname
    rw [List.length_take]
    omega
  have hcell := deref_lt_length _ _ _ hrec
  have hcopy := strncpy_of_fits commander.appearance.familyName.length (packet.take len)
    (by rw [htake]; exact hfit)
  have hcopyAccount := strncpy_of_fits m.session.game.accountSession.familyName.length
    (packet.take len) (by rw [htake]; exact hfitAccount)
  rw [htake] at hcopy hcopyAccount
  unfold barrackHandlerBarrackNameChange
  simp only [check_size_true hsize, hname, any_not_isprint_eq_false hprint, hdb, hcur, hrec,
    hcopy, hcopyAccount]
  simp [hlen, barrackNameChangeCleanup, deref, hcur, hcell, withFamilyName, hok]

/-- Witness of `rename_accepted_updates_names`: the name "Abc" on the sample
session whose slot 1 is selected. -/
theorem rename_accepted_updates_names_witness :
    barrackHandlerBarrackNameChange sampleConfig sampleCollab sampleWorker sampleMemSelected
        sampleRenamePacket []
      = some ⟨.PACKET_HANDLER_UPDATE_SESSION,
          withFamilyName sampleMemSelected 0 sampleCommander
            (sampleRenamePacket.take 3
              ++ List.replicate (sampleCommander.appearance.familyName.length - 3) 0)
            (sampleRenamePacket.take 3
              ++ List.replicate
                (sampleMemSelected.session.game.accountSession.familyName.length - 3) 0),
          [] ++ [Reply.barrackNameChange sampleConfig.BC_BARRACKNAME_CHANGE_OK
            (sampleRenamePacket.take 3
              ++ List.replicate (sampleCommander.appearance.familyName.length - 3) 0)],
          [Call.mySqlSetFamilyName sampleMemSelected.session.game.accountSession
            (bytesAt sampleRenamePacket 0 64)]⟩ :=
  rename_accepted_updates_names sampleConfig sampleCollab sampleWorker sampleMemSelected
    sampleRenamePacket [] 0 3 sampleCommander rfl rfl rfl rfl (by decide) (by decide)
    (by decide) (by decide) rfl rfl

/-- The scenario of the spec for a rename, on sample data: the name "Abc", the
database reports success; both family names become "Abc" (zero padded) and the
reply carries the status 0 and that name. -/
theorem rename_accepted_sample :
    barrackHandlerBarrackNameChange sampleConfig sampleCollab sampleWorker sampleMemSelected
        sampleRenamePacket []
      = some ⟨.PACKET_HANDLER_UPDATE_SESSION,
          withFamilyName sampleMemSelected 0 sampleCommander
            [65, 98, 99, 0, 0, 0, 0, 0] [65, 98, 99, 0, 0, 0, 0, 0],
          [Reply.barrackNameChange 0 [65, 98, 99, 0, 0, 0, 0, 0]],
          [Call.mySqlSetFamilyName sampleMemSelected.session.game.accountSession
            sampleRenamePacket]⟩ :=
  rfl

/-- When the database refuses a name change with a status other than
`BC_BARRACKNAME_CHANGE_OK`, whatever that status, the handler keeps the value of
the comparison, 1, as the change status: the reply carries 1 and the unchanged
family name of the selected commander, and the memory is unchanged. -/
theorem rename_refused_reply_carries_one (cfg : Config) (ext : Collab) (self : Worker) (m : Mem)
    (packet : List Nat) (reply : List Reply) (len : Nat) (commander : Commander)
    (hsize : packet.length = sizeofBarrackNameChangePacket)
    (hrec : deref m.heap m.session.game.commanderSession.currentCommander = some commander)
    (hname : strlen packet = some len) (hlen : len ≠ 0)
    (hprint : ∀ c ∈ packet.take len, isprint c = true)
    (hdb : ext.mySqlSetFamilyName m.session.game.accountSession (bytesAt packet 0 64)
      ≠ cfg.BC_BARRACKNAME_CHANGE_OK) :
    barrackHandlerBarrackNameChange cfg ext self m packet reply
      = some ⟨if (1 : Int) ≠ cfg.BC_BARRACKNAME_CHANGE_OK then .PACKET_HANDLER_OK
            else .PACKET_HANDLER_ERROR,
          m, reply ++ [Reply.barrackNameChange 1 commander.appearance.familyName],
          [Call.mySqlSetFamilyName m.session.game.accountSession (bytesAt packet 0 64)]⟩ := by
  unfold barrackHandlerBarrackNameChange
  simp only [check_size_true hsize, hname, any_not_isprint_eq_false hprint]
  simp [hlen, hdb, barrackNameChangeCleanup, hrec]

/-- C18 at the failing input: the database refuses the name "Abc" with the
status 2 (`BC_BARRACKNAME_CHANGE_OK` is 0); the reply carries the status 1, not
2, with the unchanged family name; the memory is unchanged and the handler
returns `PACKET_HANDLER_OK`. -/
theorem rename_refused_loses_status :
    renameRejectedCollab.mySqlSetFamilyName sampleMemSelected.session.game.accountSession
        (bytesAt sampleRenamePacket 0 64) = 2
    ∧ barrackHandlerBarrackNameChange sampleConfig renameRejectedCollab sampleWorker
        sampleMemSelected sampleRenamePacket []
      = some ⟨.PACKET_HANDLER_OK, sampleMemSelected,
          [Reply.barrackNameChange 1 [70, 97, 109, 0, 0, 0, 0, 0]],
          [Call.mySqlSetFamilyName sampleMemSelected.session.game.accountSession
            sampleRenamePacket]⟩
    ∧ Reply.barrackNameChange 1 [70, 97, 109, 0, 0, 0, 0, 0]
      ≠ Reply.barrackNameChange 2 [70, 97, 109, 0, 0, 0, 0, 0] :=
  ⟨rfl, rfl, by decide⟩

/-- C19: with a selected commander whose record is live, a well-sized
name-change packet whose name is empty, or holds a byte that is not printable
before its terminator, calls no collaborator, leaves the memory unchanged,
appends exactly one name-change reply with the status
`BC_BARRACKNAME_CHANGE_ERROR` (an enumerator other than
`BC_BARRACKNAME_CHANGE_OK`) and the unchanged family name of the selected
commander, and returns `PACKET_HANDLER_OK`. -/
theorem rename_rejects_bad_name (cfg : Config) (ext : Collab) (self : Worker) (m : Mem)
    (packet : List Nat) (reply : List Reply) (len : Nat) (commander : Commander)
    (hsize : packet.length = sizeofBarrackNameChangePacket)
    (hrec : deref m.heap m.session.game.commanderSession.currentCommander = some commander)
    (hname : strlen packet = some len)
    (hbad : len = 0 ∨ ∃ c ∈ packet.take len, isprint c = false)
    (hdistinct : cfg.BC_BARRACKNAME_CHANGE_ERROR ≠ cfg.BC_BARRACKNAME_CHANGE_OK) :
    barrackHandlerBarrackNameChange cfg ext self m packet reply
      = some ⟨.PACKET_HANDLER_OK, m,
          reply ++ [Reply.barrackNameChange cfg.BC_BARRACKNAME_CHANGE_ERROR
            commander.appearance.familyName], []⟩ := by
  unfold barrackHandlerBarrackNameChange
  simp only [check_size_true hsize, hname]
  by_cases h0 : len = 0
  · simp [h0, barrackNameChangeCleanup, hrec, hdistinct]
  · rcases hbad with h | h
    · exact absurd h h0
    · rw [if_neg h0, any_not_isprint_eq_true h]
      simp [barrackNameChangeCleanup, hrec, hdistinct]

/-- Witness of `rename_rejects_bad_name`: the empty name on the sample session
whose slot 1 is selected. -/
theorem rename_rejects_bad_name_witness :
    barrackHandlerBarrackNameChange sampleConfig sampleCollab sampleWorker sampleMemSelected
        emptyRenamePacket []
      = some ⟨.PACKET_HANDLER_OK, sampleMemSelected,
          [] ++ [Reply.barrackNameChange sampleConfig.BC_BARRACKNAME_CHANGE_ERROR
            sampleCommander.appearance.familyName], []⟩ :=
  rename_rejects_bad_name sampleConfig sampleCollab sampleWorker sampleMemSelected
    emptyRenamePacket [] 0 sampleCommander rfl rfl rfl (Or.inl rfl) (by decide)

/-! ## Start game: success -/

/-- C21: a well-sized start-game packet with `routerId` r below 4 and
`commanderIndex` K designating an occupied slot (holding the address `a` of a
live record), when the session update and the game-session move both succeed,
stores the pointer of slot K in `currentCommander` (the roster, the heap and the
rest of the session are unchanged), asks for the move of the game session from
the key (session routerId, session mapId, accountId) to the key (r, -1,
accountId), appends exactly one start-game-ok reply with the address and the
port at position r of the zone tables (the port is 2004 + r), the map id of the
selected commander, the index K and the social-info id of that commander, and
returns `PACKET_HANDLER_UPDATE_SESSION`. -/
theorem start_game_succeeds (cfg : Config) (ext : Collab) (self : Worker) (m : Mem)
    (packet : List Nat) (reply : List Reply) (a : Nat) (commander : Commander)
    (hsize : packet.length = sizeofStartGamePacket)
    (hslot : rosterGet m.session.game.accountSession.commanders (readU8 packet 2)
      = some (some a))
    (hrec : deref m.heap (some a) = some commander)
    (hrouter : readU16 packet 0 < 4)
    (hupdate : ext.redisUpdateSession (withCurrentCommander m (some a)) = true)
    (hmove : ext.redisMoveGameSession (startGameFromKey m)
      (startGameToKey m (readU16 packet 0)) = true) :
    barrackHandlerStartGame cfg ext self m packet reply
      = some ⟨.PACKET_HANDLER_UPDATE_SESSION, withCurrentCommander m (some a),
          reply ++ [Reply.startGameOk self.routerId (zoneServerIps.getD (readU16 packet 0) 0)
            (zoneServerPorts.getD (readU16 packet 0) 0) commander.mapId (readU8 packet 2)
            commander.socialInfoId false],
          [Call.redisUpdateSession (withCurrentCommander m (some a)),
            Call.redisMoveGameSession (startGameFromKey m)
              (startGameToKey m (readU16 packet 0))]⟩
    ∧ zoneServerIps.get? (readU16 packet 0) = some (zoneServerIps.getD (readU16 packet 0) 0)
    ∧ zoneServerPorts.getD (readU16 packet 0) 0 = 2004 + readU16 packet 0
    ∧ (withCurrentCommander m (some a)).session.game.commanderSession.currentCommander
        = some a
    ∧ (withCurrentCommander m (some a)).session.game.accountSession
        = m.session.game.accountSession
    ∧ (withCurrentCommander m (some a)).heap = m.heap := by
  have hlt : ¬ (readU16 packet 0 ≥ zoneServerIps.length) := by
    simp [zoneServerIps]; omega
  refine ⟨?_, ?_, ?_, rfl, rfl, rfl⟩
  · simp only [withCurrentCommander, startGameFromKey, startGameToKey] at hupdate hmove
    unfold barrackHandlerStartGame
    simp only [check_size_true hsize, hslot, hrec, if_neg hlt]
    simp [hupdate, hmove, withCurrentCommander, startGameFromKey, startGameToKey]
  · have h4 : readU16 packet 0 = 0 ∨ readU16 packet 0 = 1 ∨ readU16 packet 0 = 2
        ∨ readU16 packet 0 = 3 := by omega
    rcases h4 with h | h | h | h <;> rw [h] <;> rfl
  · have h4 : readU16 packet 0 = 0 ∨ readU16 packet 0 = 1 ∨ readU16 packet 0 = 2
        ∨ readU16 packet 0 = 3 := by omega
    rcases h4 with h | h | h | h <;> rw [h] <;> rfl

/-- Witness of `start_game_succeeds`: zone 2 and slot 1 of the sample session
with one commander. -/
theorem start_game_succeeds_witness :
    barrackHandlerStartGame sampleConfig sampleCollab sampleWorker sampleMemOne
        sampleStartGamePacket []
      = some ⟨.PACKET_HANDLER_UPDATE_SESSION, withCurrentCommander sampleMemOne (some 0),
          [] ++ [Reply.startGameOk sampleWorker.routerId
            (zoneServerIps.getD (readU16 sampleStartGamePacket 0) 0)
            (zoneServerPorts.getD (readU16 sampleStartGamePacket 0) 0) sampleCommander.mapId
            (readU8 sampleStartGamePacket 2) sampleCommander.socialInfoId false],
          [Call.redisUpdateSession (withCurrentCommander sampleMemOne (some 0)),
            Call.redisMoveGameSession (startGameFromKey sampleMemOne)
              (startGameToKey sampleMemOne (readU16 sampleStartGamePacket 0))]⟩
    ∧ zoneServerIps.get? (readU16 sampleStartGamePacket 0)
        = some (zoneServerIps.getD (readU16 sampleStartGamePacket 0) 0)
    ∧ zoneServerPorts.getD (readU16 sampleStartGamePacket 0) 0
        = 2004 + readU16 sampleStartGamePacket 0
    ∧ (withCurrentCommander sampleMemOne (some 0)).session.game.commanderSession.currentCommander
        = some 0
    ∧ (withCurrentCommander sampleMemOne (some 0)).session.game.accountSession
        = sampleMemOne.session.game.accountSession
    ∧ (withCurrentCommander sampleMemOne (some 0)).heap = sampleMemOne.heap :=
  start_game_succeeds sampleConfig sampleCollab sampleWorker sampleMemOne
    sampleStartGamePacket [] 0 sampleCommander rfl rfl rfl (by decide) rfl rfl

/-- A start game for zone 2 and slot 1, on sample data: the reply carries the
address 192.168.33.10 (loaded little-endian) and the port 2006. -/
theorem start_game_succeeds_sample :
    barrackHandlerStartGame sampleConfig sampleCollab sampleWorker sampleMemOne
        sampleStartGamePacket []
      = some ⟨.PACKET_HANDLER_UPDATE_SESSION, sampleMemSelected,
          [Reply.startGameOk 1 (le32 192 168 33 10) 2006 1002 1 6 false],
          [Call.redisUpdateSession sampleMemSelected,
            Call.redisMoveGameSession { routerId := 1, mapId := 0, accountId := 0 }
              { routerId := 2, mapId := -1, accountId := 0 }]⟩ :=
  rfl

/-! ## Commander create: index outside the roster -/

/-- The roster scan of commander create ends without a match when the slot
`commanderIndex - 1` is none of the slots it reads. -/
theorem scanSlots_no_match (commanders : List (Option Nat)) (commanderIndex : Nat) :
    ∀ (n i : Nat), i + n ≤ commanders.length →
      (commanderIndex = 0 ∨ i + n < commanderIndex) →
      scanSlots commanders commanderIndex n i = some false := by
  intro n
  induction n with
  | zero => intro i _ _; rfl
  | succ n ih =>
    intro i h hout
    have hlt : i < commanders.length := by omega
    unfold scanSlots
    rw [List.get?_eq_get hlt]
    cases commanders.get ⟨i, hlt⟩ with
    | none => exact ih (i + 1) (by omega) (by omega)
    | some b =>
      have hne : ¬ ((commanderIndex : Int) - 1 = (i : Int)) := by omega
      simp only
      rw [if_neg hne]
      exact ih (i + 1) (by omega) (by omega)

/-- A well-sized commander-create packet with a valid name, job and gender whose
`commanderIndex` is 0 or greater than MAX_COMMANDERS_PER_ACCOUNT, on a roster
of that many slots, passes the roster scan and reaches the database insert; when
the insert succeeds, the store `commanders[commanderIndex-1] = dupCommander`
falls outside the roster; when it fails, the handler returns
`PACKET_HANDLER_ERROR` with the memory unchanged. -/
theorem create_outside_roster (cfg : Config) (ext : Collab) (self : Worker) (m : Mem)
    (packet : List Nat) (reply : List Reply) (len classId : Nat)
    (hsize : packet.length = sizeofCommanderCreatePacket cfg)
    (hname : strlen (packet.drop 1) = some len) (hlen : len ≠ 0)
    (hprint : ∀ c ∈ (packet.drop 1).take len, isprint c = true)
    (hjob : classOfJob cfg (readU16 packet (1 + (cfg.COMMANDER_NAME_SIZE + 1))) = some classId)
    (hgender : genderAccepted cfg (readU8 packet (1 + (cfg.COMMANDER_NAME_SIZE + 1) + 2)) = true)
    (hroster : m.session.game.accountSession.commanders.length
      = cfg.MAX_COMMANDERS_PER_ACCOUNT)
    (hindex : readU8 packet 0 = 0 ∨ cfg.MAX_COMMANDERS_PER_ACCOUNT < readU8 packet 0) :
    barrackHandlerCommanderCreate cfg ext self m packet reply
      = match ext.mySqlCommanderInsert m.session.socket.accountId
          (createdCommander cfg ext m packet len classId) with
        | none =>
          some ⟨.PACKET_HANDLER_ERROR, m, reply, createCalls cfg ext m packet len classId⟩
        | some _ => none := by
  have hscan := scanSlots_no_match m.session.game.accountSession.commanders (readU8 packet 0)
    cfg.MAX_COMMANDERS_PER_ACCOUNT 0 (by omega) (by omega)
  have hset : ∀ p, rosterSet m.session.game.accountSession.commanders (readU8 packet 0) p
      = none := by
    intro p
    unfold rosterSet
    rcases hindex with h | h
    · rw [if_pos h]
    · rw [if_neg (by omega), if_neg (by omega)]
  unfold barrackHandlerCommanderCreate
  simp only [create_dbg_read cfg hsize, Bool.false_eq_true, if_false, check_size_true hsize, hname, hjob, hgender, hscan,
    any_not_isprint_eq_false hprint, createdCommander, createCalls, hset]
  cases ext.mySqlCommanderInsert m.session.socket.accountId _ with
  | none => simp [hlen, commanderCreateFail]
  | some inserted => simp [hlen]

/-- C24 at the failing inputs: on the sample session (a roster of 4 slots, slot
1 occupied) with a database whose insert succeeds, a well-sized commander-create
packet with valid name, job and gender and `commanderIndex` 5, or
`commanderIndex` 0, passes every check and has no result: the store
`commanders[commanderIndex-1] = dupCommander` falls outside the roster, after
the insert was issued.  With `commanderIndex` 2 the same packet succeeds. -/
theorem create_writes_outside_roster :
    sampleMemOne.session.game.accountSession.commanders.length
        = sampleConfig.MAX_COMMANDERS_PER_ACCOUNT
    ∧ barrackHandlerCommanderCreate sampleConfig sampleCollab sampleWorker sampleMemOne
        (sampleCreatePacket 5) [] = none
    ∧ barrackHandlerCommanderCreate sampleConfig sampleCollab sampleWorker sampleMemOne
        (sampleCreatePacket 0) [] = none
    ∧ rosterSet sampleMemOne.session.game.accountSession.commanders 5 (some 1) = none
    ∧ rosterSet sampleMemOne.session.game.accountSession.commanders 0 (some 1) = none
    ∧ (barrackHandlerCommanderCreate sampleConfig sampleCollab sampleWorker sampleMemOne
        (sampleCreatePacket 2) []).isSome = true
    ∧ barrackHandlerCommanderCreate sampleConfig insertFailsCollab sampleWorker sampleMemOne
        (sampleCreatePacket 5) []
      = some ⟨.PACKET_HANDLER_ERROR, sampleMemOne, [],
          createCalls sampleConfig insertFailsCollab sampleMemOne (sampleCreatePacket 5) 2
            10001⟩ :=
  ⟨rfl, rfl, rfl, rfl, rfl, rfl, rfl⟩

/-! ## Passport login -/

/-- The conversion `%llX` prints at most `fuel` digits. -/
theorem hexUpperAux_length : ∀ (fuel v : Nat) (acc : List Nat),
    (hexUpperAux fuel v acc).length ≤ fuel + acc.length := by
  intro fuel
  induction fuel with
  | zero => intro v acc; simp [hexUpperAux]
  | succ fuel ih =>
    intro v acc
    unfold hexUpperAux
    split
    · simp only [List.length_cons]; omega
    · have := ih (v / 16) (hexDigit (v % 16) :: acc)
      simp only [List.length_cons] at this
      omega

/-- The conversion `%llX` of a 64-bit value prints at most sixteen digits. -/
theorem hexUpper_length (v : Nat) : (hexUpper v).length ≤ 16 := by
  have := hexUpperAux_length 16 (v % 2 ^ 64) []
  simpa [hexUpper] using this

/-- The digit printed for `d` stands for `d`. -/
theorem hexDigitValue_hexDigit (d : Nat) (h : d < 16) : hexDigitValue (hexDigit d) = d := by
  unfold hexDigitValue hexDigit
  split <;> split <;> omega

/-- The digit printed for `d` is one of `0`..`9`, `A`..`F`. -/
theorem isUpperHexDigit_hexDigit (d : Nat) (h : d < 16) : isUpperHexDigit (hexDigit d) = true := by
  unfold isUpperHexDigit hexDigit
  split
  · simp; omega
  · simp; omega

/-- Reading back the digits printed for `v` in front of `acc` is reading `acc`
back from `v`. -/
theorem hexUpperAux_value : ∀ (fuel v : Nat) (acc : List Nat), v < 16 ^ fuel →
    (hexUpperAux fuel v acc).foldl (fun n c => 16 * n + hexDigitValue c) 0
      = acc.foldl (fun n c => 16 * n + hexDigitValue c) v := by
  intro fuel
  induction fuel with
  | zero =>
    intro v acc h
    have : v = 0 := by simpa using h
    subst this
    rfl
  | succ fuel ih =>
    intro v acc h
    unfold hexUpperAux
    split
    · rename_i hv
      simp only [List.foldl_cons, hexDigitValue_hexDigit v hv]
      congr 1
      omega
    · have hdiv : v / 16 < 16 ^ fuel := by
        rw [Nat.div_lt_iff_lt_mul (by decide)]
        rw [pow_succ] at h
        exact h
      rw [ih (v / 16) _ hdiv]
      simp only [List.foldl_cons, hexDigitValue_hexDigit (v % 16) (Nat.mod_lt _ (by decide))]
      congr 1
      omega

/-- The digits printed by `%llX` for a 64-bit value stand for that value. -/
theorem hexValue_hexUpper (v : Nat) : hexValue (hexUpper v) = v % 2 ^ 64 := by
  unfold hexValue hexUpper
  rw [hexUpperAux_value 16 (v % 2 ^ 64) [] (by
    have : (16 : Nat) ^ 16 = 2 ^ 64 := by norm_num
    rw [this]
    exact Nat.mod_lt _ (by positivity))]
  rfl

/-- Every character printed by `%llX` is one of `0`..`9`, `A`..`F`. -/
theorem hexUpperAux_digits : ∀ (fuel v : Nat) (acc : List Nat),
    (∀ c ∈ acc, isUpperHexDigit c = true) →
    ∀ c ∈ hexUpperAux fuel v acc, isUpperHexDigit c = true := by
  intro fuel
  induction fuel with
  | zero => intro v acc h; simpa [hexUpperAux] using h
  | succ fuel ih =>
    intro v acc h
    unfold hexUpperAux
    split
    · rename_i hv
      intro c hc
      rcases List.mem_cons.mp hc with rfl | hc
      · exact isUpperHexDigit_hexDigit v hv
      · exact h c hc
    · apply ih
      intro c hc
      rcases List.mem_cons.mp hc with rfl | hc
      · exact isUpperHexDigit_hexDigit _ (Nat.mod_lt _ (by decide))
      · exact h c hc

/-- The library call `snprintf` with `%llX` into an array of more than sixteen
bytes writes all the digits and the terminator. -/
theorem snprintfHex_of_fits (buf : List Nat) (v : Nat) (h : 16 < buf.length) :
    snprintfHex buf v = hexUpper v ++ [0] ++ buf.drop ((hexUpper v).length + 1) := by
  have hlen := hexUpper_length v
  unfold snprintfHex
  rw [if_neg (by omega)]
  simp only
  rw [List.take_of_length_le (by omega)]

/-- C23: a well-sized passport-login packet, whatever its bytes, when the
account-session initialisation succeeds (storing the privilege it is given, in
an account session whose login array has more than sixteen bytes), sets
`socket.authenticated`, sets `socket.accountId` to the 64-bit value `a` of the
random-number collaborator, leaves the privilege
`ACCOUNT_SESSION_PRIVILEGES_ADMIN` in the account session, writes the upper-case
hexadecimal digits of `a` and a terminator into the account login, appends
exactly one login-ok reply with `a`, that login and that privilege, and returns
`PACKET_HANDLER_UPDATE_SESSION`. -/
theorem passport_login_accepted (cfg : Config) (ext : Collab) (self : Worker) (m : Mem)
    (packet : List Nat) (reply : List Reply)
    (hsize : packet.length = sizeofLoginByPassportPacket cfg)
    (hinit : (passportInit cfg ext m).1 = true)
    (hprivilege : (passportInit cfg ext m).2.privilege = cfg.ACCOUNT_SESSION_PRIVILEGES_ADMIN)
    (hlogin : 16 < (passportInit cfg ext m).2.login.length) :
    barrackHandlerLoginByPassport cfg ext self m packet reply
      = some ⟨.PACKET_HANDLER_UPDATE_SESSION,
          { session :=
              { socket := { m.session.socket with
                  authenticated := true, accountId := passportAccountId ext }
                game := { m.session.game with
                  accountSession := { (passportInit cfg ext m).2 with
                    login := passportLogin cfg ext m
                    privilege := cfg.ACCOUNT_SESSION_PRIVILEGES_ADMIN } } }
            heap := m.heap },
          reply ++ [Reply.loginOk (passportAccountId ext) (passportLogin cfg ext m) loginToken
            cfg.ACCOUNT_SESSION_PRIVILEGES_ADMIN],
          [Call.r1emuGenerateRandom64,
            Call.accountSessionInit m.session.game.accountSession.login
              m.session.socket.sessionKey cfg.ACCOUNT_SESSION_PRIVILEGES_ADMIN]⟩
    ∧ hexValue (hexUpper (passportAccountId ext)) = passportAccountId ext
    ∧ (∀ c ∈ hexUpper (passportAccountId ext), isUpperHexDigit c = true)
    ∧ passportAccountId ext < 2 ^ 64 := by
  refine ⟨?_, ?_, ?_, ?_⟩
  · have hcopy := snprintfHex_of_fits (passportInit cfg ext m).2.login (passportAccountId ext)
      hlogin
    simp only [passportInit, passportAccountId] at hinit hprivilege hcopy
    unfold barrackHandlerLoginByPassport
    simp only [check_size_true hsize, hinit, hcopy, passportLogin, passportInit,
      passportAccountId]
    simp [hprivilege]
  · rw [hexValue_hexUpper]
    unfold passportAccountId
    exact Nat.mod_mod _ _
  · exact hexUpperAux_digits 16 _ [] (by simp)
  · exact Nat.mod_lt _ (by positivity)

/-- Witness of `passport_login_accepted` on sample data. -/
theorem passport_login_accepted_witness :
    barrackHandlerLoginByPassport sampleConfig passportCollab sampleWorker sampleMem
        samplePassportPacket []
      = some ⟨.PACKET_HANDLER_UPDATE_SESSION,
          { session :=
              { socket := { sampleMem.session.socket with
                  authenticated := true, accountId := passportAccountId passportCollab }
                game := { sampleMem.session.game with
                  accountSession := { (passportInit sampleConfig passportCollab sampleMem).2 with
                    login := passportLogin sampleConfig passportCollab sampleMem
                    privilege := sampleConfig.ACCOUNT_SESSION_PRIVILEGES_ADMIN } } }
            heap := sampleMem.heap },
          [] ++ [Reply.loginOk (passportAccountId passportCollab)
            (passportLogin sampleConfig passportCollab sampleMem) loginToken
            sampleConfig.ACCOUNT_SESSION_PRIVILEGES_ADMIN],
          [Call.r1emuGenerateRandom64,
            Call.accountSessionInit sampleMem.session.game.accountSession.login
              sampleMem.session.socket.sessionKey
              sampleConfig.ACCOUNT_SESSION_PRIVILEGES_ADMIN]⟩
    ∧ hexValue (hexUpper (passportAccountId passportCollab)) = passportAccountId passportCollab
    ∧ (∀ c ∈ hexUpper (passportAccountId passportCollab), isUpperHexDigit c = true)
    ∧ passportAccountId passportCollab < 2 ^ 64 :=
  passport_login_accepted sampleConfig passportCollab sampleWorker sampleMem
    samplePassportPacket []
    (List.length_replicate 1042 65)
    rfl rfl (by decide)

/-- The login of a passport login on sample data: the random number 48879 gives
the digits "BEEF", followed by the terminator and the rest of the array. -/
theorem passport_login_sample :
    hexUpper 48879 = [66, 69, 69, 70]
    ∧ passportAccountId passportCollab = 48879
    ∧ passportLogin sampleConfig passportCollab sampleMem
      = [66, 69, 69, 70] ++ List.replicate 29 0 := by
  decide

/-! ## Start barrack: success -/

/-- The library function `memcpy` of a whole source array into an array that is
at least as long. -/
theorem memcpy_whole (dst src : List Nat) (h : src.length ≤ dst.length) :
    memcpy dst src src.length = some (src ++ dst.drop src.length) := by
  unfold memcpy
  rw [if_pos ⟨h, Nat.le_refl _⟩, List.take_length]

/-- Only the family name of a stamped record differs from the fetched record,
and it starts with the family name of the account; when both arrays have the
same size it is the family name of the account. -/
theorem stampFamilyName_fields (familyName : List Nat) (c : Commander) :
    (stampFamilyName familyName c).appearance.commanderName = c.appearance.commanderName
    ∧ (stampFamilyName familyName c).appearance.accountId = c.appearance.accountId
    ∧ (stampFamilyName familyName c).appearance.classId = c.appearance.classId
    ∧ (stampFamilyName familyName c).appearance.jobId = c.appearance.jobId
    ∧ (stampFamilyName familyName c).appearance.gender = c.appearance.gender
    ∧ (stampFamilyName familyName c).appearance.hairId = c.appearance.hairId
    ∧ (stampFamilyName familyName c).pos = c.pos
    ∧ (stampFamilyName familyName c).mapId = c.mapId
    ∧ (stampFamilyName familyName c).pcId = c.pcId
    ∧ (stampFamilyName familyName c).socialInfoId = c.socialInfoId
    ∧ (stampFamilyName familyName c).commanderId = c.commanderId
    ∧ (stampFamilyName familyName c).appearance.familyName.take familyName.length = familyName
    ∧ (c.appearance.familyName.length = familyName.length →
        (stampFamilyName familyName c).appearance.familyName = familyName) := by
  refine ⟨rfl, rfl, rfl, rfl, rfl, rfl, rfl, rfl, rfl, rfl, rfl, ?_, ?_⟩
  · simp [stampFamilyName]
  · intro h
    simp [stampFamilyName, ← h]

/-- The loop of start barrack, `n` rounds from slot `i`, on a roster that has
the slots and with records whose family-name array holds the family name of the
account: slot `j` of the rounds points to a new cell holding the stamped copy of
record `j`, in order; the other slots and the cells already in the heap are
untouched. -/
theorem startBarrackLoop_fills (familyName : List Nat) (commanders : Nat → Commander) :
    ∀ (n i : Nat) (roster : List (Option Nat)) (heap : List (Option Commander)),
      i + n ≤ roster.length →
      (∀ j, i ≤ j → j < i + n →
        familyName.length ≤ (commanders j).appearance.familyName.length) →
      ∃ roster1 heap1, startBarrackLoop familyName commanders n i roster heap
          = some (roster1, heap1)
        ∧ roster1.length = roster.length
        ∧ (∀ j, i ≤ j → j < i + n →
            roster1.get? j = some (some (heap.length + (j - i)))
            ∧ heap1.get? (heap.length + (j - i))
              = some (some (stampFamilyName familyName (commanders j))))
        ∧ (∀ j, j < i ∨ i + n ≤ j → roster1.get? j = roster.get? j)
        ∧ (∀ a, a < heap.length → heap1.get? a = heap.get? a) := by
  intro n
  induction n with
  | zero =>
    intro i roster heap _ _
    exact ⟨roster, heap, rfl, rfl, fun j h1 h2 => by omega, fun _ _ => rfl, fun _ _ => rfl⟩
  | succ n ih =>
    intro i roster heap hlen hfam
    have hi : i < roster.length := by omega
    obtain ⟨roster1, heap1, hrun, hlen1, hfill, hrest, hold⟩ :=
      ih (i + 1) (roster.set i (some heap.length))
        (heap ++ [some (stampFamilyName familyName (commanders i))])
        (by rw [List.length_set]; omega)
        (fun j h1 h2 => hfam j (by omega) (by omega))
    refine ⟨roster1, heap1, ?_, ?_, ?_, ?_, ?_⟩
    · unfold startBarrackLoop
      rw [if_pos hi, memcpy_whole _ _ (hfam i (Nat.le_refl _) (by omega))]
      exact hrun
    · rw [hlen1, List.length_set]
    · intro j h1 h2
      by_cases hj : j = i
      · subst hj
        constructor
        · rw [hrest j (Or.inl (by omega))]
          simp [List.getElem?_set, hi]
        · rw [Nat.sub_self, Nat.add_zero, hold heap.length (by simp)]
          simp
      · have := hfill j (by omega) (by omega)
        have harith : (heap ++ [some (stampFamilyName familyName (commanders i))]).length
            + (j - (i + 1)) = heap.length + (j - i) := by
          rw [List.length_append, List.length_singleton]
          omega
        rw [harith] at this
        exact this
    · intro j hj
      rw [hrest j (by omega)]
      simp only [List.get?_eq_getElem?]
      rw [List.getElem?_set_ne (by omega)]
    · intro a ha
      rw [hold a (by rw [List.length_append]; omega)]
      simp only [List.get?_eq_getElem?]
      rw [List.getElem?_append_left ha]

/-- C22: when both database calls of start barrack succeed and return `n`
records, `n` at most MAX_COMMANDERS_PER_ACCOUNT (on a roster of that many
slots, with records whose family-name array holds the family name of the
account), roster slots 0..n-1 point, in fetch order, to new copies of the fetched
records whose family name is overwritten by the family name of the account and
whose other fields are those of the fetched record, `commandersCount` is `n`,
exactly one commander-list reply for the `n` fetched records is appended and the
handler returns `PACKET_HANDLER_UPDATE_SESSION`. -/
theorem start_barrack_fills_roster (cfg : Config) (ext : Collab) (self : Worker) (m : Mem)
    (packet : List Nat) (reply : List Reply) (n : Nat) (commanders : Nat → Commander)
    (hcount : ext.mySqlRequestCommandersByAccountId m.session.socket.accountId = some n)
    (hfetch : ext.mySqlGetCommanders n = some commanders)
    (hmax : n ≤ cfg.MAX_COMMANDERS_PER_ACCOUNT)
    (hroster : m.session.game.accountSession.commanders.length
      = cfg.MAX_COMMANDERS_PER_ACCOUNT)
    (hfam : ∀ j, j < n → m.session.game.accountSession.familyName.length
      ≤ (commanders j).appearance.familyName.length) :
    ∃ r, barrackHandlerStartBarrack cfg ext self m packet reply = some r
      ∧ r.status = .PACKET_HANDLER_UPDATE_SESSION
      ∧ r.reply = reply ++ [Reply.commanderList m.session.socket.accountId r.mem.session.game
          ((List.range n).map commanders) n]
      ∧ r.calls = [Call.mySqlRequestCommandersByAccountId m.session.socket.accountId,
          Call.mySqlGetCommanders n]
      ∧ r.mem.session.game.accountSession.commandersCount = n
      ∧ (∀ j, j < n →
          r.mem.session.game.accountSession.commanders.get? j
            = some (some (m.heap.length + j))
          ∧ deref r.mem.heap (some (m.heap.length + j))
            = some (stampFamilyName m.session.game.accountSession.familyName (commanders j)))
      ∧ (∀ j, n ≤ j →
          r.mem.session.game.accountSession.commanders.get? j
            = m.session.game.accountSession.commanders.get? j)
      ∧ (∀ a, a < m.heap.length → r.mem.heap.get? a = m.heap.get? a)
      ∧ r.mem.session.socket = m.session.socket
      ∧ r.mem.session.game.commanderSession = m.session.game.commanderSession
      ∧ r.mem.session.game.accountSession.familyName
        = m.session.game.accountSession.familyName := by
  obtain ⟨roster1, heap1, hrun, _, hfill, hrest, hold⟩ :=
    startBarrackLoop_fills m.session.game.accountSession.familyName commanders n 0
      m.session.game.accountSession.commanders m.heap (by omega)
      (fun j _ h2 => hfam j (by omega))
  refine ⟨⟨.PACKET_HANDLER_UPDATE_SESSION,
    { session := { m.session with game := { m.session.game with
        accountSession := { m.session.game.accountSession with
          commandersCount := n, commanders := roster1 } } }
      heap := heap1 },
    reply ++ [Reply.commanderList m.session.socket.accountId
      { m.session.game with accountSession := { m.session.game.accountSession with
          commandersCount := n, commanders := roster1 } }
      ((List.range n).map commanders) n],
    [Call.mySqlRequestCommandersByAccountId m.session.socket.accountId,
      Call.mySqlGetCommanders n]⟩, ?_, rfl, rfl, rfl, rfl, ?_, ?_, ?_, rfl, rfl, rfl⟩
  · unfold barrackHandlerStartBarrack
    simp only [hcount, hfetch, hrun]
    simp
  · intro j hj
    have := hfill j (Nat.zero_le _) (by omega)
    simp only [Nat.sub_zero] at this
    exact ⟨this.1, by simp only [deref]; rw [this.2]; rfl⟩
  · intro j hj
    exact hrest j (Or.inr (by omega))
  · intro a ha
    exact hold a ha

/-- Witness of `start_barrack_fills_roster`: two records fetched into the empty
sample roster. -/
theorem start_barrack_fills_roster_witness :
    ∃ r, barrackHandlerStartBarrack sampleConfig twoCommandersCollab sampleWorker sampleMem [] [] = some r
      ∧ r.status = .PACKET_HANDLER_UPDATE_SESSION
      ∧ r.reply = [] ++ [Reply.commanderList sampleMem.session.socket.accountId r.mem.session.game
          ((List.range 2).map fetchedCommander) 2]
      ∧ r.calls = [Call.mySqlRequestCommandersByAccountId sampleMem.session.socket.accountId,
          Call.mySqlGetCommanders 2]
      ∧ r.mem.session.game.accountSession.commandersCount = 2
      ∧ (∀ j, j < 2 →
          r.mem.session.game.accountSession.commanders.get? j
            = some (some (sampleMem.heap.length + j))
          ∧ deref r.mem.heap (some (sampleMem.heap.length + j))
            = some (stampFamilyName sampleMem.session.game.accountSession.familyName (fetchedCommander j)))
      ∧ (∀ j, 2 ≤ j →
          r.mem.session.game.accountSession.commanders.get? j
            = sampleMem.session.game.accountSession.commanders.get? j)
      ∧ (∀ a, a < sampleMem.heap.length → r.mem.heap.get? a = sampleMem.heap.get? a)
      ∧ r.mem.session.socket = sampleMem.session.socket
      ∧ r.mem.session.game.commanderSession = sampleMem.session.game.commanderSession
      ∧ r.mem.session.game.accountSession.familyName
        = sampleMem.session.game.accountSession.familyName :=
  start_barrack_fills_roster sampleConfig twoCommandersCollab sampleWorker sampleMem [] [] 2
    fetchedCommander rfl rfl (by decide) rfl (fun _ _ => Nat.le_refl 8)

/-- A start barrack on sample data: two records with the family name "Old" are
fetched into the empty roster of an account whose family name is "Fam". -/
theorem start_barrack_sample :
    (barrackHandlerStartBarrack sampleConfig twoCommandersCollab sampleWorker sampleMem
        [] []).map (fun r => (r.status, r.mem.session.game.accountSession.commanders,
          r.mem.session.game.accountSession.commandersCount, r.mem.heap))
      = some (.PACKET_HANDLER_UPDATE_SESSION, [some 0, some 1, none, none], 2,
          [some { fetchedCommander 0 with appearance := { (fetchedCommander 0).appearance with
              familyName := [70, 97, 109, 0, 0, 0, 0, 0] } },
            some { fetchedCommander 1 with appearance := { (fetchedCommander 1).appearance with
              familyName := [70, 97, 109, 0, 0, 0, 0, 0] } }]) :=
  rfl

end Barrack
